import Mathlib

set_option maxHeartbeats 1000000

namespace Vsi

/-!
Shallow embedding of the OAuth integration core of the repository:
the key-value store contract (core/contracts.py, modeled as an
association list with an effect log), the adapter registry
(integrations/core/registry.py), the OAuth strategies
(integrations/base/oauth.py) and the provider adapters
(integrations/adapters/airtable.py, hubspot.py, notion.py).
Store TTLs are not modeled: the expire argument of set is recorded
in the signature but has no semantic effect, matching the claims,
none of which concern real-time expiry.
-/

/-- Lookup in an association list, modeling Python dict read and redis GET. -/
def lookupAssoc {α : Type} (d : List (String × α)) (k : String) : Option α :=
  (d.find? (fun kv => kv.1 == k)).map (fun kv => kv.2)

/-- Key removal, modeling Python dict del and redis DELETE. -/
def delAssoc {α : Type} (d : List (String × α)) (k : String) : List (String × α) :=
  d.filter (fun kv => kv.1 != k)

/-- Overwriting insert, modeling Python dict assignment and redis SET.
Ordering of entries differs from CPython insertion order, which no claim
observes; the map read through lookupAssoc is the same. -/
def setAssoc {α : Type} (d : List (String × α)) (k : String) (v : α) : List (String × α) :=
  (k, v) :: delAssoc d k

/-- ASCII lower-casing of one character, the behavior of Python str.lower
on the ASCII names the registry is used with (core Char.toLower). -/
def lowerChar (c : Char) : Char := Char.toLower c

/-- ASCII lower-casing of a string, modeling Python str.lower. -/
def strLower (s : String) : String := ⟨s.data.map lowerChar⟩

/-- Embedding of registry.register_adapter: stores the adapter under the
lower-cased name, overwriting any previous entry. -/
def registerAdapter {α : Type} (reg : List (String × α)) (name : String) (adapter : α) :
    List (String × α) :=
  setAssoc reg (strLower name) adapter

/-- Embedding of registry.get_adapter: lower-cases the name and looks it up,
raising KeyError (modeled as Except.error; the quotes of the Python message
around the name are omitted) when the key is absent. -/
def getAdapter {α : Type} (reg : List (String × α)) (name : String) : Except String α :=
  match lookupAssoc reg (strLower name) with
  | none => Except.error ("No adapter registered for " ++ name)
  | some a => Except.ok a

/-- Embedding of registry.list_adapters: the list of registered keys. -/
def listAdapters {α : Type} (reg : List (String × α)) : List String :=
  reg.map (fun kv => kv.1)

/-- The registry invariant of claim C10: every registered key is its own
lower-casing. -/
def registryWF {α : Type} (reg : List (String × α)) : Prop :=
  ∀ k ∈ listAdapters reg, strLower k = k

/-- One observable effect of a request: a store read, write or delete, or an
outbound HTTP POST (the token exchange). -/
inductive Event where
  | get (key : String)
  | set (key : String)
  | del (key : String)
  | post (url : String)
deriving DecidableEq, Repr

/-- The key-value store contract of core/contracts.py: the stored entries
plus the log of effects performed so far (oldest first). -/
structure KV where
  data : List (String × String)
  log : List Event
deriving DecidableEq, Repr

/-- Store write, modeling KeyValueStore.set. The expire argument is the TTL
in seconds; real-time expiry is not modeled, so it is ignored. -/
def kvSet (kv : KV) (k v : String) (_expire : Option Nat) : KV :=
  ⟨setAssoc kv.data k v, kv.log ++ [Event.set k]⟩

/-- The store after a KeyValueStore.get call: same contents, the read
logged. The value a get returns is lookupAssoc on the contents. -/
def kvAfterGet (kv : KV) (k : String) : KV :=
  ⟨kv.data, kv.log ++ [Event.get k]⟩

/-- Store delete, modeling KeyValueStore.delete. -/
def kvDelete (kv : KV) (k : String) : KV :=
  ⟨delAssoc kv.data k, kv.log ++ [Event.del k]⟩

/-- The outbound token-exchange POST: the response status and parsed JSON
body are supplied by the environment as arguments; the call is logged. -/
def httpPost (kv : KV) (url : String) : KV :=
  ⟨kv.data, kv.log ++ [Event.post url]⟩

/-- The query parameter mapping handed to callback (Mapping[str, str]). -/
abbrev Params := List (String × String)

/-- Dict read with default None, modeling params.get(key). -/
def getParam (ps : Params) (k : String) : Option String :=
  lookupAssoc ps k

/-- Python truthiness of an optional string: None and the empty string are
falsy, every other string is truthy. -/
def truthy (o : Option String) : Bool :=
  o.getD "" != ""

/-- The state record of integrations/core/models.py (pydantic OAuthState). -/
structure OAuthState where
  state : String
  user_id : String
  org_id : String
deriving DecidableEq, Repr

/-- The store key holding the serialized OAuthState for one transaction. -/
def stateKey (provider org_id user_id : String) : String :=
  provider ++ "_state:" ++ org_id ++ ":" ++ user_id

/-- The store key holding the PKCE code verifier for one transaction. -/
def verifierKey (provider org_id user_id : String) : String :=
  provider ++ "_verifier:" ++ org_id ++ ":" ++ user_id

/-- The URL-safe base64 alphabet used by base64.urlsafe_b64encode. -/
def b64Alphabet : List Char :=
  "ABCDEFGHIJKLMNOPQRSTUVWXYZabcdefghijklmnopqrstuvwxyz0123456789-_".data

/-- The alphabet character of a six-bit group. -/
def encB64 (n : Nat) : Char := b64Alphabet.getD n 'A'

/-- The six-bit value of an alphabet character, none for other characters. -/
def decB64 (c : Char) : Option Nat :=
  b64Alphabet.findIdx? (fun a => a == c)

/-- base64.urlsafe_b64encode on a byte list, producing padded output. -/
def b64EncodeBytes : List Nat → List Char
  | [] => []
  | [b0] => [encB64 (b0 / 4), encB64 (b0 % 4 * 16), '=', '=']
  | [b0, b1] => [encB64 (b0 / 4), encB64 (b0 % 4 * 16 + b1 / 16), encB64 (b1 % 16 * 4), '=']
  | b0 :: b1 :: b2 :: rest =>
    encB64 (b0 / 4) :: encB64 (b0 % 4 * 16 + b1 / 16) ::
      encB64 (b1 % 16 * 4 + b2 / 64) :: encB64 (b2 % 64) :: b64EncodeBytes rest

/-- base64.urlsafe_b64decode on a character list. Stricter than Python on
garbage input (non-alphabet characters are rejected rather than discarded,
and the plus and slash alphabet is not accepted), which no claim observes:
every decoded value in the claims was produced by b64EncodeBytes. -/
def b64DecodeChars : List Char → Option (List Nat)
  | [] => some []
  | c0 :: c1 :: c2 :: c3 :: rest =>
    if c2 = '=' then
      if c3 = '=' ∧ rest = [] then
        match decB64 c0, decB64 c1 with
        | some s0, some s1 => some [s0 * 4 + s1 / 16]
        | _, _ => none
      else none
    else if c3 = '=' then
      if rest = [] then
        match decB64 c0, decB64 c1, decB64 c2 with
        | some s0, some s1, some s2 => some [s0 * 4 + s1 / 16, s1 % 16 * 16 + s2 / 4]
        | _, _, _ => none
      else none
    else
      match decB64 c0, decB64 c1, decB64 c2, decB64 c3, b64DecodeChars rest with
      | some s0, some s1, some s2, some s3, some tail =>
        some ((s0 * 4 + s1 / 16) :: (s1 % 16 * 16 + s2 / 4) :: (s2 % 4 * 64 + s3) :: tail)
      | _, _, _, _, _ => none
  | _ => none

/-- String wrapper for b64EncodeBytes. -/
def base64urlEncode (bs : List Nat) : String := ⟨b64EncodeBytes bs⟩

/-- String wrapper for b64DecodeChars. -/
def base64urlDecode (s : String) : Option (List Nat) := b64DecodeChars s.data

/-- UTF-8 encoding of one character (str.encode). -/
def utf8EncodeChar (c : Char) : List Nat :=
  if c.toNat < 128 then [c.toNat]
  else if c.toNat < 2048 then [192 + c.toNat / 64, 128 + c.toNat % 64]
  else if c.toNat < 65536 then
    [224 + c.toNat / 4096, 128 + c.toNat / 64 % 64, 128 + c.toNat % 64]
  else
    [240 + c.toNat / 262144, 128 + c.toNat / 4096 % 64, 128 + c.toNat / 64 % 64,
     128 + c.toNat % 64]

/-- UTF-8 encoding of a string (str.encode). -/
def utf8Encode (s : String) : List Nat :=
  s.data.flatMap utf8EncodeChar

/-- Is this byte a UTF-8 continuation byte. -/
def isCont (b : Nat) : Bool := 128 ≤ b && b < 192

/-- Code point of a two-byte UTF-8 sequence. -/
def code2 (b b1 : Nat) : Nat := (b - 192) * 64 + (b1 - 128)

/-- Validity of a two-byte UTF-8 sequence (continuation, no overlong). -/
def ok2 (b b1 : Nat) : Bool := isCont b1 && decide (128 ≤ code2 b b1)

/-- Code point of a three-byte UTF-8 sequence. -/
def code3 (b b1 b2 : Nat) : Nat := (b - 224) * 4096 + (b1 - 128) * 64 + (b2 - 128)

/-- Validity of a three-byte UTF-8 sequence (continuations, no overlong,
no surrogate). -/
def ok3 (b b1 b2 : Nat) : Bool :=
  isCont b1 && isCont b2 && decide (2048 ≤ code3 b b1 b2) &&
    !(decide (55296 ≤ code3 b b1 b2) && decide (code3 b b1 b2 < 57344))

/-- Code point of a four-byte UTF-8 sequence. -/
def code4 (b b1 b2 b3 : Nat) : Nat :=
  (b - 240) * 262144 + (b1 - 128) * 4096 + (b2 - 128) * 64 + (b3 - 128)

/-- Validity of a four-byte UTF-8 sequence (continuations, no overlong,
in range). -/
def ok4 (b b1 b2 b3 : Nat) : Bool :=
  isCont b1 && isCont b2 && isCont b3 &&
    decide (65536 ≤ code4 b b1 b2 b3) && decide (code4 b b1 b2 b3 ≤ 1114111)

/-- Strict UTF-8 decoding (bytes.decode), rejecting malformed sequences,
overlong encodings, surrogates and out-of-range code points. The fuel
argument only bounds the recursion; one unit is spent per decoded code
point, so any fuel at least the byte length gives the untruncated decode. -/
def utf8DecodeAux : Nat → List Nat → Option (List Char)
  | _, [] => some []
  | 0, _ :: _ => none
  | fuel + 1, b :: rest =>
    if b < 128 then (utf8DecodeAux fuel rest).map (fun l => Char.ofNat b :: l)
    else if b < 192 then none
    else if b < 224 then
      match rest with
      | b1 :: rest2 =>
        if ok2 b b1 then
          (utf8DecodeAux fuel rest2).map (fun l => Char.ofNat (code2 b b1) :: l)
        else none
      | [] => none
    else if b < 240 then
      match rest with
      | b1 :: b2 :: rest2 =>
        if ok3 b b1 b2 then
          (utf8DecodeAux fuel rest2).map (fun l => Char.ofNat (code3 b b1 b2) :: l)
        else none
      | _ => none
    else if b < 248 then
      match rest with
      | b1 :: b2 :: b3 :: rest2 =>
        if ok4 b b1 b2 b3 then
          (utf8DecodeAux fuel rest2).map (fun l => Char.ofNat (code4 b b1 b2 b3) :: l)
        else none
      | _ => none
    else none

/-- UTF-8 decoding of a byte list (bytes.decode). -/
def utf8DecodeList (bs : List Nat) : Option (List Char) :=
  utf8DecodeAux bs.length bs

/-- String wrapper for utf8DecodeList. -/
def utf8Decode (bs : List Nat) : Option String :=
  (utf8DecodeList bs).map (fun l => String.mk l)

/-- Lowercase hex digit. -/
def hexDigit (n : Nat) : Char := "0123456789abcdef".data.getD n '0'

/-- JSON escaping of one character, as the pydantic serializer emits it:
quote and backslash escaped, control characters as short escapes or u-escapes,
all other characters (ASCII or not) emitted verbatim. -/
def escapeChar (c : Char) : List Char :=
  if c = '"' then ['\\', '"']
  else if c = '\\' then ['\\', '\\']
  else if c = Char.ofNat 8 then ['\\', 'b']
  else if c = Char.ofNat 9 then ['\\', 't']
  else if c = Char.ofNat 10 then ['\\', 'n']
  else if c = Char.ofNat 12 then ['\\', 'f']
  else if c = Char.ofNat 13 then ['\\', 'r']
  else if c.toNat < 32 then ['\\', 'u', '0', '0', hexDigit (c.toNat / 16), hexDigit (c.toNat % 16)]
  else [c]

/-- JSON escaping of a whole string. -/
def escapeString (s : String) : List Char :=
  s.data.flatMap escapeChar

/-- A JSON string literal with surrounding quotes. -/
def dumpStringLit (s : String) : String :=
  String.mk ('"' :: escapeString s ++ ['"'])

/-- A character is ASCII-safe when it is printable ASCII and needs no JSON
escaping: the regime of the round-trip claims. -/
def asciiSafeChar (c : Char) : Bool :=
  decide (32 ≤ c.toNat) && decide (c.toNat < 127) && c != '"' && c != '\\'

/-- A string of ASCII-safe characters. -/
def asciiSafe (s : String) : Bool :=
  s.data.all asciiSafeChar

/-- model_dump_json of an OAuthState: compact JSON, fields in declaration
order, exactly as the pydantic serializer produces it. -/
def dumpOAuthState (st : OAuthState) : String :=
  "\x7b\"state\":" ++ dumpStringLit st.state ++ ",\"user_id\":" ++ dumpStringLit st.user_id
    ++ ",\"org_id\":" ++ dumpStringLit st.org_id ++ "\x7d"

/-- A JSON value as it appears in the payloads the core handles: strings,
integers, null, and one flat level of string-valued object (the Notion
owner dict). Fractions, exponents, booleans, arrays and deeper nesting do
not occur in the modeled payloads. -/
inductive JVal where
  | s (v : String)
  | n (v : Int)
  | null
  | obj (fields : List (String × String))
deriving DecidableEq, Repr

/-- Serialize one JSON value. -/
def dumpJVal : JVal → String
  | JVal.s v => dumpStringLit v
  | JVal.n i => toString i
  | JVal.null => "null"
  | JVal.obj fs =>
    "\x7b" ++ String.intercalate ","
      (fs.map (fun kv => dumpStringLit kv.1 ++ ":" ++ dumpStringLit kv.2)) ++ "\x7d"

/-- JSON unescaping of a short escape; u-escapes are not modeled (they do
not occur in output of the modeled serializer). -/
def unescape (c : Char) : Option Char :=
  if c = '"' then some '"'
  else if c = '\\' then some '\\'
  else if c = '/' then some '/'
  else if c = 'b' then some (Char.ofNat 8)
  else if c = 't' then some (Char.ofNat 9)
  else if c = 'n' then some (Char.ofNat 10)
  else if c = 'f' then some (Char.ofNat 12)
  else if c = 'r' then some (Char.ofNat 13)
  else none

/-- Decimal digit test. -/
def isDigit (c : Char) : Bool := 48 ≤ c.toNat && c.toNat ≤ 57

/-- Value of a list of decimal digits. -/
def digitsToNat (ds : List Char) : Nat :=
  ds.foldl (fun a c => a * 10 + (c.toNat - 48)) 0

/-- Build the JSON integer from sign and digits. -/
def mkNum (neg : Bool) (ds : List Char) : JVal :=
  JVal.n (if neg then -(digitsToNat ds : Int) else (digitsToNat ds : Int))

/-- Parser state for the flat-object JSON parser: where in the object the
scan currently stands. -/
inductive PMode where
  | keyFirst
  | key0
  | inKey (acc : List Char)
  | inKeyEsc (acc : List Char)
  | preColon (k : List Char)
  | preVal (k : List Char)
  | inStr (k : List Char) (acc : List Char)
  | inStrEsc (k : List Char) (acc : List Char)
  | inNum (k : List Char) (neg : Bool) (ds : List Char)
  | inLit (k : List Char) (want : List Char)
  | postVal
deriving DecidableEq, Repr

/-- One-character-at-a-time parser for a flat JSON object with string,
integer and null values, modeling the JSON acceptance of
model_validate_json on the payload shapes the core stores. String
accumulators are kept reversed; fields are accumulated in reverse and
reversed on success. Insignificant whitespace and nested values are not
modeled (they do not occur in output of the modeled serializer). -/
def parseObjAux (fields : List (String × JVal)) : PMode → List Char → Option (List (String × JVal))
  | PMode.keyFirst, c :: cs =>
    if c = '"' then parseObjAux fields (PMode.inKey []) cs
    else if c = '\x7d' then (if cs = [] then some fields.reverse else none)
    else none
  | PMode.key0, c :: cs =>
    if c = '"' then parseObjAux fields (PMode.inKey []) cs else none
  | PMode.inKey acc, c :: cs =>
    if c = '"' then parseObjAux fields (PMode.preColon acc.reverse) cs
    else if c = '\\' then parseObjAux fields (PMode.inKeyEsc acc) cs
    else parseObjAux fields (PMode.inKey (c :: acc)) cs
  | PMode.inKeyEsc acc, c :: cs =>
    match unescape c with
    | some e => parseObjAux fields (PMode.inKey (e :: acc)) cs
    | none => none
  | PMode.preColon k, c :: cs =>
    if c = ':' then parseObjAux fields (PMode.preVal k) cs else none
  | PMode.preVal k, c :: cs =>
    if c = '"' then parseObjAux fields (PMode.inStr k []) cs
    else if c = '-' then parseObjAux fields (PMode.inNum k true []) cs
    else if isDigit c then parseObjAux fields (PMode.inNum k false [c]) cs
    else if c = 'n' then parseObjAux fields (PMode.inLit k ['u', 'l', 'l']) cs
    else none
  | PMode.inStr k acc, c :: cs =>
    if c = '"' then parseObjAux ((String.mk k, JVal.s (String.mk acc.reverse)) :: fields) PMode.postVal cs
    else if c = '\\' then parseObjAux fields (PMode.inStrEsc k acc) cs
    else parseObjAux fields (PMode.inStr k (c :: acc)) cs
  | PMode.inStrEsc k acc, c :: cs =>
    match unescape c with
    | some e => parseObjAux fields (PMode.inStr k (e :: acc)) cs
    | none => none
  | PMode.inNum k neg ds, c :: cs =>
    if isDigit c then parseObjAux fields (PMode.inNum k neg (ds ++ [c])) cs
    else if ds = [] then none
    else if c = ',' then parseObjAux ((String.mk k, mkNum neg ds) :: fields) PMode.key0 cs
    else if c = '\x7d' then
      (if cs = [] then some (((String.mk k, mkNum neg ds) :: fields).reverse) else none)
    else none
  | PMode.inLit k want, c :: cs =>
    match want with
    | w :: ws =>
      if c = w then
        (if ws = [] then parseObjAux ((String.mk k, JVal.null) :: fields) PMode.postVal cs
         else parseObjAux fields (PMode.inLit k ws) cs)
      else none
    | [] => none
  | PMode.postVal, c :: cs =>
    if c = ',' then parseObjAux fields PMode.key0 cs
    else if c = '\x7d' then (if cs = [] then some fields.reverse else none)
    else none
  | _, [] => none

/-- Parse a whole string as a flat JSON object. -/
def parseFlatObj (s : String) : Option (List (String × JVal)) :=
  match s.data with
  | c :: cs => if c = '\x7b' then parseObjAux [] PMode.keyFirst cs else none
  | [] => none

/-- Field lookup in a parsed object; with duplicate keys the last
occurrence wins, as in the JSON parsers pydantic uses. -/
def jLookup (fs : List (String × JVal)) (k : String) : Option JVal :=
  lookupAssoc fs.reverse k

/-- model_validate for OAuthState: the three required string fields, extra
fields ignored. -/
def validateOAuthState (fs : List (String × JVal)) : Option OAuthState :=
  match jLookup fs "state", jLookup fs "user_id", jLookup fs "org_id" with
  | some (JVal.s a), some (JVal.s b), some (JVal.s c) => some ⟨a, b, c⟩
  | _, _, _ => none

/-- model_validate_json for OAuthState. -/
def parseOAuthState (s : String) : Option OAuthState :=
  (parseFlatObj s).bind validateOAuthState

/-- The state decoding performed by callback step 4: base64url decode, then
UTF-8 decode, then OAuthState validation; any failure is an invalid state. -/
def decodeOAuthState (encoded : String) : Option OAuthState :=
  (base64urlDecode encoded).bind (fun bs => (utf8Decode bs).bind parseOAuthState)

/-- Read an optional string field as pydantic lax mode does: absent or null
is None, a string is itself, any other type is a validation error. -/
def getOptStr (fs : List (String × JVal)) (k : String) : Option (Option String) :=
  match jLookup fs k with
  | none => some none
  | some JVal.null => some none
  | some (JVal.s v) => some (some v)
  | some _ => none

/-- Read an optional integer field; string-to-number lax coercion is not
modeled. -/
def getOptInt (fs : List (String × JVal)) (k : String) : Option (Option Int) :=
  match jLookup fs k with
  | none => some none
  | some JVal.null => some none
  | some (JVal.n v) => some (some v)
  | some _ => none

/-- Read an optional dict field (the Notion owner). -/
def getOptObj (fs : List (String × JVal)) (k : String) : Option (Option (List (String × String))) :=
  match jLookup fs k with
  | none => some none
  | some JVal.null => some none
  | some (JVal.obj v) => some (some v)
  | some _ => none

/-- Read a required string field. -/
def getReqStr (fs : List (String × JVal)) (k : String) : Option String :=
  match jLookup fs k with
  | some (JVal.s v) => some v
  | _ => none

/-- Serialize an optional string field. -/
def dumpOptStr : Option String → String
  | none => "null"
  | some v => dumpStringLit v

/-- Serialize an optional integer field. -/
def dumpOptInt : Option Int → String
  | none => "null"
  | some i => toString i

/-- Serialize the optional Notion owner dict. -/
def dumpOptObj : Option (List (String × String)) → String
  | none => "null"
  | some fs => dumpJVal (JVal.obj fs)

/-- AirtableCredentials of integrations/core (models.py). -/
structure AirtableCredentials where
  access_token : String
  token_type : Option String
  expires_in : Option Int
  refresh_token : Option String
deriving DecidableEq, Repr

/-- model_validate for AirtableCredentials. -/
def validateAirtableCredentials (fs : List (String × JVal)) : Option AirtableCredentials :=
  match getReqStr fs "access_token", getOptStr fs "token_type",
      getOptInt fs "expires_in", getOptStr fs "refresh_token" with
  | some atk, some tt, some ei, some rt => some ⟨atk, tt, ei, rt⟩
  | _, _, _, _ => none

/-- model_validate_json for AirtableCredentials. -/
def parseAirtableCredentials (s : String) : Option AirtableCredentials :=
  (parseFlatObj s).bind validateAirtableCredentials

/-- model_dump_json for AirtableCredentials. -/
def dumpAirtableCredentials (c : AirtableCredentials) : String :=
  "\x7b\"access_token\":" ++ dumpStringLit c.access_token
    ++ ",\"token_type\":" ++ dumpOptStr c.token_type
    ++ ",\"expires_in\":" ++ dumpOptInt c.expires_in
    ++ ",\"refresh_token\":" ++ dumpOptStr c.refresh_token ++ "\x7d"

/-- HubSpotCredentials of integrations/core (models.py). -/
structure HubSpotCredentials where
  access_token : String
  refresh_token : String
  token_type : Option String
  expires_in : Option Int
deriving DecidableEq, Repr

/-- model_validate for HubSpotCredentials. -/
def validateHubSpotCredentials (fs : List (String × JVal)) : Option HubSpotCredentials :=
  match getReqStr fs "access_token", getReqStr fs "refresh_token",
      getOptStr fs "token_type", getOptInt fs "expires_in" with
  | some atk, some rt, some tt, some ei => some ⟨atk, rt, tt, ei⟩
  | _, _, _, _ => none

/-- model_validate_json for HubSpotCredentials. -/
def parseHubSpotCredentials (s : String) : Option HubSpotCredentials :=
  (parseFlatObj s).bind validateHubSpotCredentials

/-- model_dump_json for HubSpotCredentials. -/
def dumpHubSpotCredentials (c : HubSpotCredentials) : String :=
  "\x7b\"access_token\":" ++ dumpStringLit c.access_token
    ++ ",\"refresh_token\":" ++ dumpStringLit c.refresh_token
    ++ ",\"token_type\":" ++ dumpOptStr c.token_type
    ++ ",\"expires_in\":" ++ dumpOptInt c.expires_in ++ "\x7d"

/-- NotionCredentials of integrations/core (models.py); the owner dict is
modeled one flat string-valued level deep. -/
structure NotionCredentials where
  access_token : String
  token_type : Option String
  bot_id : Option String
  workspace_id : Option String
  workspace_name : Option String
  workspace_icon : Option String
  owner : Option (List (String × String))
deriving DecidableEq, Repr

/-- model_validate for NotionCredentials. -/
def validateNotionCredentials (fs : List (String × JVal)) : Option NotionCredentials :=
  match getReqStr fs "access_token", getOptStr fs "token_type", getOptStr fs "bot_id",
      getOptStr fs "workspace_id", getOptStr fs "workspace_name",
      getOptStr fs "workspace_icon", getOptObj fs "owner" with
  | some atk, some tt, some bi, some wi, some wn, some wc, some ow =>
    some ⟨atk, tt, bi, wi, wn, wc, ow⟩
  | _, _, _, _, _, _, _ => none

/-- model_validate_json for NotionCredentials. -/
def parseNotionCredentials (s : String) : Option NotionCredentials :=
  (parseFlatObj s).bind validateNotionCredentials

/-- model_dump_json for NotionCredentials. -/
def dumpNotionCredentials (c : NotionCredentials) : String :=
  "\x7b\"access_token\":" ++ dumpStringLit c.access_token
    ++ ",\"token_type\":" ++ dumpOptStr c.token_type
    ++ ",\"bot_id\":" ++ dumpOptStr c.bot_id
    ++ ",\"workspace_id\":" ++ dumpOptStr c.workspace_id
    ++ ",\"workspace_name\":" ++ dumpOptStr c.workspace_name
    ++ ",\"workspace_icon\":" ++ dumpOptStr c.workspace_icon
    ++ ",\"owner\":" ++ dumpOptObj c.owner ++ "\x7d"

/-- Right rotation within 32 bits. -/
def rotr32 (x n : Nat) : Nat := (x >>> n ||| x <<< (32 - n)) % 4294967296

/-- The SHA-256 round constants, in decimal. -/
def sha256K : List Nat :=
  [1116352408, 1899447441, 3049323471, 3921009573,
   961987163, 1508970993, 2453635748, 2870763221,
   3624381080, 310598401, 607225278, 1426881987,
   1925078388, 2162078206, 2614888103, 3248222580,
   3835390401, 4022224774, 264347078, 604807628,
   770255983, 1249150122, 1555081692, 1996064986,
   2554220882, 2821834349, 2952996808, 3210313671,
   3336571891, 3584528711, 113926993, 338241895,
   666307205, 773529912, 1294757372, 1396182291,
   1695183700, 1986661051, 2177026350, 2456956037,
   2730485921, 2820302411, 3259730800, 3345764771,
   3516065817, 3600352804, 4094571909, 275423344,
   430227734, 506948616, 659060556, 883997877,
   958139571, 1322822218, 1537002063, 1747873779,
   1955562222, 2024104815, 2227730452, 2361852424,
   2428436474, 2756734187, 3204031479, 3329325298]

/-- Big-endian 8-byte encoding of the bit length. -/
def be64 (n : Nat) : List Nat :=
  [n / 72057594037927936 % 256, n / 281474976710656 % 256, n / 1099511627776 % 256,
   n / 4294967296 % 256, n / 16777216 % 256, n / 65536 % 256, n / 256 % 256, n % 256]

/-- SHA-256 message padding. -/
def sha256Pad (msg : List Nat) : List Nat :=
  msg ++ [128] ++ List.replicate ((119 - msg.length % 64) % 64) 0 ++ be64 (msg.length * 8)

/-- Split a byte list into 64-byte chunks. -/
def chunks64 (l : List Nat) : List (List Nat) :=
  if l = [] then [] else l.take 64 :: chunks64 (l.drop 64)
termination_by l.length
decreasing_by
  simp only [List.length_drop]
  cases l with
  | nil => simp_all
  | cons a t => simp; omega

/-- Big-endian 32-bit words of a chunk. -/
def toWordsBE : List Nat → List Nat
  | b0 :: b1 :: b2 :: b3 :: rest => (b0 * 16777216 + b1 * 65536 + b2 * 256 + b3) :: toWordsBE rest
  | _ => []

/-- One message-schedule extension step, appending word number w.length. -/
def scheduleStep (w : List Nat) : List Nat :=
  let i := w.length
  let w15 := w.getD (i - 15) 0
  let w2 := w.getD (i - 2) 0
  let w16 := w.getD (i - 16) 0
  let w7 := w.getD (i - 7) 0
  let s0 := rotr32 w15 7 ^^^ rotr32 w15 18 ^^^ (w15 >>> 3)
  let s1 := rotr32 w2 17 ^^^ rotr32 w2 19 ^^^ (w2 >>> 10)
  w ++ [(w16 + s0 + w7 + s1) % 4294967296]

/-- Iterate the schedule extension. -/
def extendSchedule (w : List Nat) : Nat → List Nat
  | 0 => w
  | n + 1 => scheduleStep (extendSchedule w n)

/-- The 64-word message schedule of a chunk. -/
def schedule (w : List Nat) : List Nat := extendSchedule w 48

/-- The eight 32-bit working variables of the compression loop. -/
structure Sha256W where
  a : Nat
  b : Nat
  c : Nat
  d : Nat
  e : Nat
  f : Nat
  g : Nat
  h : Nat
deriving DecidableEq, Repr

/-- The eight-word hash state. -/
structure Sha256H where
  h0 : Nat
  h1 : Nat
  h2 : Nat
  h3 : Nat
  h4 : Nat
  h5 : Nat
  h6 : Nat
  h7 : Nat
deriving DecidableEq, Repr

/-- The SHA-256 initial hash values, in decimal. -/
def sha256Init : Sha256H :=
  ⟨1779033703, 3144134277, 1013904242, 2773480762, 1359893119, 2600822924, 528734635, 1541459225⟩

/-- One compression round. -/
def roundFn (s : Sha256W) (ki wi : Nat) : Sha256W :=
  let bigS1 := rotr32 s.e 6 ^^^ rotr32 s.e 11 ^^^ rotr32 s.e 25
  let ch := (s.e &&& s.f) ^^^ ((4294967295 ^^^ s.e) &&& s.g)
  let temp1 := (s.h + bigS1 + ch + ki + wi) % 4294967296
  let bigS0 := rotr32 s.a 2 ^^^ rotr32 s.a 13 ^^^ rotr32 s.a 22
  let maj := (s.a &&& s.b) ^^^ (s.a &&& s.c) ^^^ (s.b &&& s.c)
  let temp2 := (bigS0 + maj) % 4294967296
  ⟨(temp1 + temp2) % 4294967296, s.a, s.b, s.c, (s.d + temp1) % 4294967296, s.e, s.f, s.g⟩

/-- Compress one 64-byte chunk into the hash state. -/
def compressChunk (hs : Sha256H) (chunk : List Nat) : Sha256H :=
  let w := schedule (toWordsBE chunk)
  let init : Sha256W := ⟨hs.h0, hs.h1, hs.h2, hs.h3, hs.h4, hs.h5, hs.h6, hs.h7⟩
  let fin := (sha256K.zip w).foldl (fun s kw => roundFn s kw.1 kw.2) init
  ⟨(hs.h0 + fin.a) % 4294967296, (hs.h1 + fin.b) % 4294967296, (hs.h2 + fin.c) % 4294967296,
   (hs.h3 + fin.d) % 4294967296, (hs.h4 + fin.e) % 4294967296, (hs.h5 + fin.f) % 4294967296,
   (hs.h6 + fin.g) % 4294967296, (hs.h7 + fin.h) % 4294967296⟩

/-- Big-endian bytes of a 32-bit word. -/
def wordBE (w : Nat) : List Nat :=
  [w / 16777216 % 256, w / 65536 % 256, w / 256 % 256, w % 256]

/-- SHA-256 of a byte list (hashlib.sha256(...).digest()). -/
def sha256Bytes (msg : List Nat) : List Nat :=
  let hs := (chunks64 (sha256Pad msg)).foldl compressChunk sha256Init
  wordBE hs.h0 ++ wordBE hs.h1 ++ wordBE hs.h2 ++ wordBE hs.h3
    ++ wordBE hs.h4 ++ wordBE hs.h5 ++ wordBE hs.h6 ++ wordBE hs.h7

/-- A fastapi.HTTPException surfaced to the request layer: status code and
human-readable detail. Branches where the Python lets a pydantic
ValidationError escape uncaught are modeled as status 500. -/
structure HTTPError where
  status_code : Nat
  detail : String
deriving DecidableEq, Repr

/-- Result of StandardOAuthStrategy.authorize. -/
structure StdAuthorizeResult where
  state_data : OAuthState
  encoded_state : String
deriving DecidableEq, Repr

/-- StandardOAuthStrategy.authorize (oauth.py lines 34-47). The fresh
random token from secrets.token_urlsafe(32) is supplied by the
environment as the stateToken argument. -/
def standardAuthorize (provider user_id org_id stateToken : String) (expiry_seconds : Nat)
    (kv : KV) : StdAuthorizeResult × KV :=
  let state_data : OAuthState := ⟨stateToken, user_id, org_id⟩
  let json := dumpOAuthState state_data
  let encoded_state := base64urlEncode (utf8Encode json)
  let kv := kvSet kv (stateKey provider org_id user_id) json (some expiry_seconds)
  (⟨state_data, encoded_state⟩, kv)

/-- Result of StandardOAuthStrategy.callback. -/
structure StdCallbackResult where
  code : String
  user_id : String
  org_id : String
deriving DecidableEq, Repr

/-- StandardOAuthStrategy.callback (oauth.py lines 49-90). The detail of
the invalid-state error omits the appended Python exception text. -/
def standardCallback (provider : String) (params : Params) (kv : KV) :
    Except HTTPError StdCallbackResult × KV :=
  if truthy (getParam params "error") then
    (Except.error ⟨400, (getParam params "error_description").getD "OAuth error"⟩, kv)
  else if (getParam params "code").getD "" = "" then
    (Except.error ⟨400, "Authorization code not provided"⟩, kv)
  else if (getParam params "state").getD "" = "" then
    (Except.error ⟨400, "State parameter not provided"⟩, kv)
  else
    match decodeOAuthState ((getParam params "state").getD "") with
    | none => (Except.error ⟨400, "Invalid state parameter"⟩, kv)
    | some received =>
      match lookupAssoc kv.data (stateKey provider received.org_id received.user_id) with
      | none =>
        (Except.error ⟨400, "State not found or expired"⟩,
          kvAfterGet kv (stateKey provider received.org_id received.user_id))
      | some saved =>
        if saved = "" then
          (Except.error ⟨400, "State not found or expired"⟩,
            kvAfterGet kv (stateKey provider received.org_id received.user_id))
        else
          match parseOAuthState saved with
          | none =>
            (Except.error ⟨500, "Internal Server Error"⟩,
              kvAfterGet kv (stateKey provider received.org_id received.user_id))
          | some savedData =>
            if savedData.state != received.state then
              (Except.error ⟨400, "State mismatch"⟩,
                kvAfterGet kv (stateKey provider received.org_id received.user_id))
            else
              (Except.ok ⟨(getParam params "code").getD "",
                  received.user_id, received.org_id⟩,
                kvDelete (kvAfterGet kv (stateKey provider received.org_id received.user_id))
                  (stateKey provider received.org_id received.user_id))

/-- Result of PKCEOAuthStrategy.authorize. -/
structure PkceAuthorizeResult where
  state_data : OAuthState
  encoded_state : String
  code_challenge : String
deriving DecidableEq, Repr

/-- str.replace applied to strip every padding character, as
.replace("=", "") does on the challenge. -/
def stripPad (s : String) : String :=
  String.mk (s.data.filter (fun c => c != '='))

/-- PKCEOAuthStrategy.authorize (oauth.py lines 94-126). The two fresh
random tokens from secrets.token_urlsafe(32) are supplied by the
environment as stateToken and codeVerifier. -/
def pkceAuthorize (provider user_id org_id stateToken codeVerifier : String)
    (expiry_seconds : Nat) (kv : KV) : PkceAuthorizeResult × KV :=
  let state_data : OAuthState := ⟨stateToken, user_id, org_id⟩
  let json := dumpOAuthState state_data
  let encoded_state := base64urlEncode (utf8Encode json)
  let code_challenge := stripPad (base64urlEncode (sha256Bytes (utf8Encode codeVerifier)))
  let kv := kvSet kv (stateKey provider org_id user_id) json (some expiry_seconds)
  let kv := kvSet kv (verifierKey provider org_id user_id) codeVerifier (some expiry_seconds)
  (⟨state_data, encoded_state, code_challenge⟩, kv)

/-- Result of PKCEOAuthStrategy.callback. -/
structure PkceCallbackResult where
  code : String
  user_id : String
  org_id : String
  code_verifier : String
deriving DecidableEq, Repr

/-- PKCEOAuthStrategy.callback (oauth.py lines 128-149): delegates state
verification to the standard callback, then reads and deletes the stored
verifier. The bytes-to-str utf-8 decode of the stored verifier is the
identity here because the store is modeled at string level. -/
def pkceCallback (provider : String) (params : Params) (kv : KV) :
    Except HTTPError PkceCallbackResult × KV :=
  match standardCallback provider params kv with
  | (Except.error e, kv2) => (Except.error e, kv2)
  | (Except.ok r, kv2) =>
    match lookupAssoc kv2.data (verifierKey provider r.org_id r.user_id) with
    | none =>
      (Except.error ⟨400, "Code verifier not found or expired"⟩,
        kvAfterGet kv2 (verifierKey provider r.org_id r.user_id))
    | some v =>
      if v = "" then
        (Except.error ⟨400, "Code verifier not found or expired"⟩,
          kvAfterGet kv2 (verifierKey provider r.org_id r.user_id))
      else
        (Except.ok ⟨r.code, r.user_id, r.org_id, v⟩,
          kvDelete (kvAfterGet kv2 (verifierKey provider r.org_id r.user_id))
            (verifierKey provider r.org_id r.user_id))

/-- AirtableAdapter.oauth_callback (adapters/airtable.py lines 39-78):
PKCE verification, token exchange, credential persistence. The HTTP
response (status code and parsed JSON body) is supplied by the
environment; the credential TTL from settings is the credExpiry argument;
the terminal close-window HTML response is modeled as Unit. -/
def airtableOauthCallback (params : Params) (tokenStatus : Nat)
    (tokenBody : List (String × JVal)) (credExpiry : Nat) (kv : KV) :
    Except HTTPError Unit × KV :=
  match pkceCallback "airtable" params kv with
  | (Except.error e, kv2) => (Except.error e, kv2)
  | (Except.ok r, kv2) =>
    if tokenStatus != 200 then
      (Except.error ⟨400, "Failed to exchange code for token."⟩,
        httpPost kv2 "https://airtable.com/oauth2/v1/token")
    else
      match validateAirtableCredentials tokenBody with
      | none =>
        (Except.error ⟨500, "Internal Server Error"⟩,
          httpPost kv2 "https://airtable.com/oauth2/v1/token")
      | some creds =>
        (Except.ok (),
          kvSet (httpPost kv2 "https://airtable.com/oauth2/v1/token")
            ("airtable_credentials:" ++ r.org_id ++ ":" ++ r.user_id)
            (dumpAirtableCredentials creds) (some credExpiry))

/-- HubspotAdapter.oauth_callback (adapters/hubspot.py lines 53-85). -/
def hubspotOauthCallback (params : Params) (tokenStatus : Nat)
    (tokenBody : List (String × JVal)) (credExpiry : Nat) (kv : KV) :
    Except HTTPError Unit × KV :=
  match standardCallback "hubspot" params kv with
  | (Except.error e, kv2) => (Except.error e, kv2)
  | (Except.ok r, kv2) =>
    if tokenStatus != 200 then
      (Except.error ⟨500, "Failed to exchange authorization code for token"⟩,
        httpPost kv2 "https://api.hubapi.com/oauth/v1/token")
    else
      match validateHubSpotCredentials tokenBody with
      | none =>
        (Except.error ⟨500, "Internal Server Error"⟩,
          httpPost kv2 "https://api.hubapi.com/oauth/v1/token")
      | some creds =>
        (Except.ok (),
          kvSet (httpPost kv2 "https://api.hubapi.com/oauth/v1/token")
            ("hubspot_credentials:" ++ r.org_id ++ ":" ++ r.user_id)
            (dumpHubSpotCredentials creds) (some credExpiry))

/-- NotionAdapter.oauth_callback (adapters/notion.py lines 39-71). -/
def notionOauthCallback (params : Params) (tokenStatus : Nat)
    (tokenBody : List (String × JVal)) (credExpiry : Nat) (kv : KV) :
    Except HTTPError Unit × KV :=
  match standardCallback "notion" params kv with
  | (Except.error e, kv2) => (Except.error e, kv2)
  | (Except.ok r, kv2) =>
    if tokenStatus != 200 then
      (Except.error ⟨400, "Failed to exchange code for token."⟩,
        httpPost kv2 "https://api.notion.com/v1/oauth/token")
    else
      match validateNotionCredentials tokenBody with
      | none =>
        (Except.error ⟨500, "Internal Server Error"⟩,
          httpPost kv2 "https://api.notion.com/v1/oauth/token")
      | some creds =>
        (Except.ok (),
          kvSet (httpPost kv2 "https://api.notion.com/v1/oauth/token")
            ("notion_credentials:" ++ r.org_id ++ ":" ++ r.user_id)
            (dumpNotionCredentials creds) (some credExpiry))

/-- AirtableAdapter.get_credentials (adapters/airtable.py lines 80-89):
single read of the stored credentials, deleted on success. -/
def airtableGetCredentials (user_id org_id : String) (kv : KV) :
    Except HTTPError AirtableCredentials × KV :=
  match lookupAssoc kv.data ("airtable_credentials:" ++ org_id ++ ":" ++ user_id) with
  | none =>
    (Except.error ⟨400, "No credentials found."⟩,
      kvAfterGet kv ("airtable_credentials:" ++ org_id ++ ":" ++ user_id))
  | some s =>
    if s = "" then
      (Except.error ⟨400, "No credentials found."⟩,
        kvAfterGet kv ("airtable_credentials:" ++ org_id ++ ":" ++ user_id))
    else
      match parseAirtableCredentials s with
      | none =>
        (Except.error ⟨500, "Internal Server Error"⟩,
          kvAfterGet kv ("airtable_credentials:" ++ org_id ++ ":" ++ user_id))
      | some c =>
        (Except.ok c,
          kvDelete (kvAfterGet kv ("airtable_credentials:" ++ org_id ++ ":" ++ user_id))
            ("airtable_credentials:" ++ org_id ++ ":" ++ user_id))

/-- HubspotAdapter.get_credentials (adapters/hubspot.py lines 87-94). -/
def hubspotGetCredentials (user_id org_id : String) (kv : KV) :
    Except HTTPError HubSpotCredentials × KV :=
  match lookupAssoc kv.data ("hubspot_credentials:" ++ org_id ++ ":" ++ user_id) with
  | none =>
    (Except.error ⟨400, "No credentials found."⟩,
      kvAfterGet kv ("hubspot_credentials:" ++ org_id ++ ":" ++ user_id))
  | some s =>
    if s = "" then
      (Except.error ⟨400, "No credentials found."⟩,
        kvAfterGet kv ("hubspot_credentials:" ++ org_id ++ ":" ++ user_id))
    else
      match parseHubSpotCredentials s with
      | none =>
        (Except.error ⟨500, "Internal Server Error"⟩,
          kvAfterGet kv ("hubspot_credentials:" ++ org_id ++ ":" ++ user_id))
      | some c =>
        (Except.ok c,
          kvDelete (kvAfterGet kv ("hubspot_credentials:" ++ org_id ++ ":" ++ user_id))
            ("hubspot_credentials:" ++ org_id ++ ":" ++ user_id))

/-- NotionAdapter.get_credentials (adapters/notion.py lines 73-80). -/
def notionGetCredentials (user_id org_id : String) (kv : KV) :
    Except HTTPError NotionCredentials × KV :=
  match lookupAssoc kv.data ("notion_credentials:" ++ org_id ++ ":" ++ user_id) with
  | none =>
    (Except.error ⟨400, "No credentials found."⟩,
      kvAfterGet kv ("notion_credentials:" ++ org_id ++ ":" ++ user_id))
  | some s =>
    if s = "" then
      (Except.error ⟨400, "No credentials found."⟩,
        kvAfterGet kv ("notion_credentials:" ++ org_id ++ ":" ++ user_id))
    else
      match parseNotionCredentials s with
      | none =>
        (Except.error ⟨500, "Internal Server Error"⟩,
          kvAfterGet kv ("notion_credentials:" ++ org_id ++ ":" ++ user_id))
      | some c =>
        (Except.ok c,
          kvDelete (kvAfterGet kv ("notion_credentials:" ++ org_id ++ ":" ++ user_id))
            ("notion_credentials:" ++ org_id ++ ":" ++ user_id))

/-- The event is a store operation on the given key. -/
def eventKeyIs (k : String) (e : Event) : Prop :=
  e = Event.get k ∨ e = Event.set k ∨ e = Event.del k

/-- The event is a store operation on some state key of the provider. -/
def isStateOp (p : String) (e : Event) : Prop :=
  ∃ o u, eventKeyIs (stateKey p o u) e

/-- The event is a store operation on some verifier key of the provider. -/
def isVerifierOp (p : String) (e : Event) : Prop :=
  ∃ o u, eventKeyIs (verifierKey p o u) e

/-- The event is a read of some state key of the provider. -/
def isStateGet (p : String) (e : Event) : Prop :=
  ∃ o u, e = Event.get (stateKey p o u)

/-- The event is a deletion of some state key of the provider. -/
def isStateDel (p : String) (e : Event) : Prop :=
  ∃ o u, e = Event.del (stateKey p o u)

/-- The event is an outbound HTTP POST. -/
def isPostEv (e : Event) : Prop :=
  ∃ url, e = Event.post url

/-- Every P event in the list comes strictly before every Q event. -/
def eventsOrdered (L : List Event) (P Q : Event → Prop) : Prop :=
  ∀ (i j : Nat) (e f : Event), L[i]? = some e → L[j]? = some f → P e → Q f → i < j

theorem lookupAssoc_cons {α : Type} (hd : String × α) (tl : List (String × α)) (k : String) :
    lookupAssoc (hd :: tl) k = if hd.1 = k then some hd.2 else lookupAssoc tl k := by
  by_cases h : hd.1 = k <;> simp [lookupAssoc, List.find?_cons, h]

theorem delAssoc_cons {α : Type} (hd : String × α) (tl : List (String × α)) (k : String) :
    delAssoc (hd :: tl) k = if hd.1 = k then delAssoc tl k else hd :: delAssoc tl k := by
  by_cases h : hd.1 = k <;> simp [delAssoc, List.filter_cons, h]

theorem lookupAssoc_delAssoc_self {α : Type} (d : List (String × α)) (k : String) :
    lookupAssoc (delAssoc d k) k = none := by
  induction d with
  | nil => rfl
  | cons hd tl ih =>
    rw [delAssoc_cons]
    by_cases h : hd.1 = k
    · rw [if_pos h]; exact ih
    · rw [if_neg h, lookupAssoc_cons, if_neg h]; exact ih

theorem lookupAssoc_delAssoc_ne {α : Type} (d : List (String × α)) (k k' : String)
    (hne : k' ≠ k) : lookupAssoc (delAssoc d k) k' = lookupAssoc d k' := by
  induction d with
  | nil => rfl
  | cons hd tl ih =>
    rw [delAssoc_cons]
    by_cases h : hd.1 = k
    · have h2 : ¬ hd.1 = k' := by
        intro hc; exact hne (hc ▸ h)
      rw [if_pos h, lookupAssoc_cons, if_neg h2]; exact ih
    · rw [if_neg h, lookupAssoc_cons, lookupAssoc_cons]
      by_cases h2 : hd.1 = k'
      · rw [if_pos h2, if_pos h2]
      · rw [if_neg h2, if_neg h2]; exact ih

theorem lookupAssoc_setAssoc_self {α : Type} (d : List (String × α)) (k : String) (v : α) :
    lookupAssoc (setAssoc d k v) k = some v := by
  simp [lookupAssoc, setAssoc]

theorem lookupAssoc_setAssoc_ne {α : Type} (d : List (String × α)) (k k' : String) (v : α)
    (hne : k' ≠ k) : lookupAssoc (setAssoc d k v) k' = lookupAssoc d k' := by
  have h1 : ¬ k = k' := fun hc => hne hc.symm
  simp only [lookupAssoc, setAssoc, List.find?_cons]
  simp only [show (k == k') = false from beq_eq_false_iff_ne.mpr h1]
  exact lookupAssoc_delAssoc_ne d k k' hne

theorem charToNat_ofNat_valid (n : Nat) (h : n < 55296) : (Char.ofNat n).toNat = n := by
  have hv : n.isValidChar := Or.inl h
  simp [Char.ofNat, hv]
  rfl

theorem lowerChar_idem (c : Char) : lowerChar (lowerChar c) = lowerChar c := by
  unfold lowerChar Char.toLower
  by_cases h : c.toNat ≥ 65 ∧ c.toNat ≤ 90
  · have hval : (Char.ofNat (c.toNat + 32)).toNat = c.toNat + 32 :=
      charToNat_ofNat_valid _ (by omega)
    simp only [h, if_true]
    have : ¬ ((Char.ofNat (c.toNat + 32)).toNat ≥ 65 ∧ (Char.ofNat (c.toNat + 32)).toNat ≤ 90) := by
      rw [hval]; omega
    simp [this]
  · simp [h]

theorem strLower_idem (s : String) : strLower (strLower s) = strLower s := by
  simp only [strLower, List.map_map]
  congr 1
  exact List.map_congr_left (fun c _ => lowerChar_idem c)

theorem string_ne_of_data_form (a b : String) (pre : List Char) (c d : Char)
    (cs ds : List Char) (ha : a.data = pre ++ c :: cs) (hb : b.data = pre ++ d :: ds)
    (hcd : c ≠ d) : a ≠ b := by
  intro h
  rw [h, hb] at ha
  have h2 := List.append_cancel_left ha
  injection h2 with h3 h4
  exact hcd h3.symm

theorem stateKey_ne_verifierKey (p o u o' u' : String) :
    stateKey p o u ≠ verifierKey p o' u' := by
  have l1 : ("_state:" : String).data = ['_', 's', 't', 'a', 't', 'e', ':'] := rfl
  have l2 : ("_verifier:" : String).data =
    ['_', 'v', 'e', 'r', 'i', 'f', 'i', 'e', 'r', ':'] := rfl
  have l3 : (":" : String).data = [':'] := rfl
  apply string_ne_of_data_form _ _ (p.data ++ ['_']) 's' 'v'
    (['t', 'a', 't', 'e', ':'] ++ (o.data ++ [':'] ++ u.data))
    (['e', 'r', 'i', 'f', 'i', 'e', 'r', ':'] ++ (o'.data ++ [':'] ++ u'.data))
  · simp [stateKey, String.data_append, l1, l3]
  · simp [verifierKey, String.data_append, l2, l3]
  · decide

theorem credKey_ne_stateKey (p o u o' u' : String) :
    p ++ "_credentials:" ++ o ++ ":" ++ u ≠ stateKey p o' u' := by
  have l1 : ("_credentials:" : String).data =
    ['_', 'c', 'r', 'e', 'd', 'e', 'n', 't', 'i', 'a', 'l', 's', ':'] := rfl
  have l2 : ("_state:" : String).data = ['_', 's', 't', 'a', 't', 'e', ':'] := rfl
  have l3 : (":" : String).data = [':'] := rfl
  apply string_ne_of_data_form _ _ (p.data ++ ['_']) 'c' 's'
    (['r', 'e', 'd', 'e', 'n', 't', 'i', 'a', 'l', 's', ':'] ++ (o.data ++ [':'] ++ u.data))
    (['t', 'a', 't', 'e', ':'] ++ (o'.data ++ [':'] ++ u'.data))
  · simp [String.data_append, l1, l3]
  · simp [stateKey, String.data_append, l2, l3]
  · decide

theorem credKey_ne_verifierKey (p o u o' u' : String) :
    p ++ "_credentials:" ++ o ++ ":" ++ u ≠ verifierKey p o' u' := by
  have l1 : ("_credentials:" : String).data =
    ['_', 'c', 'r', 'e', 'd', 'e', 'n', 't', 'i', 'a', 'l', 's', ':'] := rfl
  have l2 : ("_verifier:" : String).data =
    ['_', 'v', 'e', 'r', 'i', 'f', 'i', 'e', 'r', ':'] := rfl
  have l3 : (":" : String).data = [':'] := rfl
  apply string_ne_of_data_form _ _ (p.data ++ ['_']) 'c' 'v'
    (['r', 'e', 'd', 'e', 'n', 't', 'i', 'a', 'l', 's', ':'] ++ (o.data ++ [':'] ++ u.data))
    (['e', 'r', 'i', 'f', 'i', 'e', 'r', ':'] ++ (o'.data ++ [':'] ++ u'.data))
  · simp [String.data_append, l1, l3]
  · simp [verifierKey, String.data_append, l2, l3]
  · decide

theorem standardCallback_ok_data (provider : String) (params : Params) (kv : KV)
    (r : StdCallbackResult)
    (h : (standardCallback provider params kv).1 = Except.ok r) :
    (standardCallback provider params kv).2.data =
      delAssoc kv.data (stateKey provider r.org_id r.user_id) := by
  unfold standardCallback at h ⊢
  split at h <;> try simp at h
  split at h <;> try simp at h
  split at h <;> try simp at h
  split at h <;> try simp at h
  split at h <;> try simp at h
  split at h <;> try simp at h
  split at h <;> try simp at h
  split at h <;> try simp at h
  · rw [← h]
    simp_all [kvDelete, kvAfterGet]

theorem pkceCallback_ok_data (provider : String) (params : Params) (kv : KV)
    (r : PkceCallbackResult)
    (h : (pkceCallback provider params kv).1 = Except.ok r) :
    (pkceCallback provider params kv).2.data =
      delAssoc (delAssoc kv.data (stateKey provider r.org_id r.user_id))
        (verifierKey provider r.org_id r.user_id) := by
  unfold pkceCallback at h ⊢
  split at h <;> try simp at h
  rename_i rs kv2 heq
  have h1 : (standardCallback provider params kv).1 = Except.ok rs := by rw [heq]
  have h2 : kv2.data = delAssoc kv.data (stateKey provider rs.org_id rs.user_id) := by
    have h3 := standardCallback_ok_data provider params kv rs h1
    rw [heq] at h3
    exact h3
  split at h <;> try simp at h
  split at h <;> try simp at h
  rw [← h]
  simp_all [kvDelete, kvAfterGet]

theorem decB64_encB64 : ∀ n < 64, decB64 (encB64 n) = some n := by decide

theorem encB64_ne_pad : ∀ n < 64, encB64 n ≠ '=' := by decide

theorem b64_roundtrip (bs : List Nat) (h : ∀ b ∈ bs, b < 256) :
    b64DecodeChars (b64EncodeBytes bs) = some bs := by
  induction bs using b64EncodeBytes.induct with
  | case1 => rfl
  | case2 b0 =>
    have hb0 : b0 < 256 := h b0 (by simp)
    have e1 := decB64_encB64 (b0 / 4) (by omega)
    have e2 := decB64_encB64 (b0 % 4 * 16) (by omega)
    simp only [b64EncodeBytes, b64DecodeChars, if_pos rfl, e1, e2]
    simp only [and_true, reduceIte]
    congr 1
    congr 1
    omega
  | case3 b0 b1 =>
    have hb0 : b0 < 256 := h b0 (by simp)
    have hb1 : b1 < 256 := h b1 (by simp)
    have e1 := decB64_encB64 (b0 / 4) (by omega)
    have e2 := decB64_encB64 (b0 % 4 * 16 + b1 / 16) (by omega)
    have e3 := decB64_encB64 (b1 % 16 * 4) (by omega)
    have ne3 := encB64_ne_pad (b1 % 16 * 4) (by omega)
    simp only [b64EncodeBytes, b64DecodeChars, if_neg ne3, if_pos rfl, e1, e2, e3, reduceIte]
    congr 1
    congr 1
    · omega
    · congr 1
      omega
  | case4 b0 b1 b2 rest ih =>
    have hb0 : b0 < 256 := h b0 (by simp)
    have hb1 : b1 < 256 := h b1 (by simp)
    have hb2 : b2 < 256 := h b2 (by simp)
    have hrest : ∀ b ∈ rest, b < 256 := fun b hb => h b (by simp [hb])
    have e1 := decB64_encB64 (b0 / 4) (by omega)
    have e2 := decB64_encB64 (b0 % 4 * 16 + b1 / 16) (by omega)
    have e3 := decB64_encB64 (b1 % 16 * 4 + b2 / 64) (by omega)
    have e4 := decB64_encB64 (b2 % 64) (by omega)
    have ne3 := encB64_ne_pad (b1 % 16 * 4 + b2 / 64) (by omega)
    have ne4 := encB64_ne_pad (b2 % 64) (by omega)
    simp only [b64EncodeBytes, b64DecodeChars, if_neg ne3, if_neg ne4, e1, e2, e3, e4,
      ih hrest]
    congr 1
    congr 1
    · omega
    · congr 1
      · omega
      · congr 1
        omega

theorem char_toNat_lt (c : Char) : c.toNat < 1114112 := by
  have hv : c.val.toNat < 55296 ∨ (57344 ≤ c.val.toNat ∧ c.val.toNat < 1114112) := c.valid
  show c.val.toNat < 1114112
  rcases hv with h | ⟨h5, h6⟩ <;> omega

theorem utf8EncodeChar_lt_256 (c : Char) : ∀ b ∈ utf8EncodeChar c, b < 256 := by
  intro b hb
  unfold utf8EncodeChar at hb
  by_cases h1 : c.toNat < 128
  · rw [if_pos h1] at hb; simp at hb; omega
  · rw [if_neg h1] at hb
    by_cases h2 : c.toNat < 2048
    · rw [if_pos h2] at hb; simp at hb; rcases hb with hb | hb <;> omega
    · rw [if_neg h2] at hb
      by_cases h3 : c.toNat < 65536
      · rw [if_pos h3] at hb; simp at hb; rcases hb with hb | hb | hb <;> omega
      · rw [if_neg h3] at hb; simp at hb
        have h4 := char_toNat_lt c
        rcases hb with hb | hb | hb | hb <;> omega

theorem utf8Encode_lt_256 (s : String) : ∀ b ∈ utf8Encode s, b < 256 := by
  intro b hb
  unfold utf8Encode at hb
  rcases List.mem_flatMap.mp hb with ⟨c, _, hc⟩
  exact utf8EncodeChar_lt_256 c b hc

theorem utf8DecodeAux_ascii (l : List Char) (fuel : Nat) (h : ∀ c ∈ l, c.toNat < 128)
    (hfuel : (l.flatMap utf8EncodeChar).length ≤ fuel) :
    utf8DecodeAux fuel (l.flatMap utf8EncodeChar) = some l := by
  induction l generalizing fuel with
  | nil => cases fuel <;> rfl
  | cons c tl ih =>
    have hc : c.toNat < 128 := h c (by simp)
    have htl : ∀ x ∈ tl, x.toNat < 128 := fun x hx => h x (by simp [hx])
    have henc : utf8EncodeChar c = [c.toNat] := by
      unfold utf8EncodeChar
      rw [if_pos hc]
    have hlen : (tl.flatMap utf8EncodeChar).length + 1 ≤ fuel := by
      rw [List.flatMap_cons, henc] at hfuel
      simpa using hfuel
    simp only [List.flatMap_cons, henc, List.cons_append, List.nil_append]
    cases fuel with
    | zero => omega
    | succ f =>
      simp only [utf8DecodeAux, if_pos hc]
      rw [ih f htl (by omega)]
      simp only [Option.map_some', Char.ofNat_toNat]

theorem utf8Decode_encode_ascii (s : String) (h : ∀ c ∈ s.data, c.toNat < 128) :
    utf8Decode (utf8Encode s) = some s := by
  unfold utf8Decode utf8DecodeList utf8Encode
  rw [utf8DecodeAux_ascii s.data _ h (Nat.le_refl _)]
  rfl

theorem parseOAuthState_empty : parseOAuthState "" = none := rfl

theorem decodeOAuthState_empty : decodeOAuthState "" = none := rfl

theorem escapeChar_id (c : Char) (h : asciiSafeChar c = true) : escapeChar c = [c] := by
  unfold asciiSafeChar at h
  simp only [Bool.and_eq_true, decide_eq_true_eq, bne_iff_ne, ne_eq] at h
  obtain ⟨⟨⟨h1, h2⟩, h3⟩, h4⟩ := h
  have e8 : (Char.ofNat 8).toNat = 8 := charToNat_ofNat_valid 8 (by omega)
  have e9 : (Char.ofNat 9).toNat = 9 := charToNat_ofNat_valid 9 (by omega)
  have e10 : (Char.ofNat 10).toNat = 10 := charToNat_ofNat_valid 10 (by omega)
  have e12 : (Char.ofNat 12).toNat = 12 := charToNat_ofNat_valid 12 (by omega)
  have e13 : (Char.ofNat 13).toNat = 13 := charToNat_ofNat_valid 13 (by omega)
  unfold escapeChar
  rw [if_neg h3, if_neg h4,
    if_neg (fun hc => by rw [hc] at h1; omega),
    if_neg (fun hc => by rw [hc] at h1; omega),
    if_neg (fun hc => by rw [hc] at h1; omega),
    if_neg (fun hc => by rw [hc] at h1; omega),
    if_neg (fun hc => by rw [hc] at h1; omega),
    if_neg (by omega)]

theorem escapeList_id (l : List Char) (h : l.all asciiSafeChar = true) :
    l.flatMap escapeChar = l := by
  induction l with
  | nil => rfl
  | cons c tl ih =>
    simp only [List.all_cons, Bool.and_eq_true] at h
    simp only [List.flatMap_cons, escapeChar_id c h.1, List.cons_append, List.nil_append]
    rw [ih h.2]

theorem escapeString_id (s : String) (h : asciiSafe s = true) : escapeString s = s.data :=
  escapeList_id s.data h

theorem parseObjAux_walk (fields : List (String × JVal)) (k : List Char) (cs : List Char)
    (h : cs.all asciiSafeChar = true) (acc rest : List Char) :
    parseObjAux fields (PMode.inStr k acc) (cs ++ rest) =
      parseObjAux fields (PMode.inStr k (cs.reverse ++ acc)) rest := by
  induction cs generalizing acc with
  | nil => rfl
  | cons c tl ih =>
    simp only [List.all_cons, Bool.and_eq_true] at h
    have hsafe := h.1
    unfold asciiSafeChar at hsafe
    simp only [Bool.and_eq_true, decide_eq_true_eq, bne_iff_ne, ne_eq] at hsafe
    obtain ⟨⟨⟨hx1, hx2⟩, hx3⟩, hx4⟩ := hsafe
    simp only [List.cons_append]
    rw [parseObjAux]
    rw [if_neg hx3, if_neg hx4]
    rw [ih h.2]
    simp [List.append_assoc]

theorem parseObjAux_strVal (fields : List (String × JVal)) (k : List Char) (s : String)
    (h : asciiSafe s = true) (rest : List Char) :
    parseObjAux fields (PMode.inStr k []) (s.data ++ '"' :: rest) =
      parseObjAux ((String.mk k, JVal.s s) :: fields) PMode.postVal rest := by
  rw [parseObjAux_walk fields k s.data h [] ('"' :: rest)]
  rw [parseObjAux]
  simp

theorem asciiSafe_lt128 (s : String) (h : asciiSafe s = true) :
    ∀ c ∈ s.data, c.toNat < 128 := by
  intro c hc
  unfold asciiSafe at h
  have h2 := List.all_eq_true.mp h c hc
  unfold asciiSafeChar at h2
  simp only [Bool.and_eq_true, decide_eq_true_eq] at h2
  omega

theorem dumpOAuthState_data (st : OAuthState) (h1 : asciiSafe st.state = true)
    (h2 : asciiSafe st.user_id = true) (h3 : asciiSafe st.org_id = true) :
    (dumpOAuthState st).data =
      '\x7b' :: ('"' :: 's' :: 't' :: 'a' :: 't' :: 'e' :: '"' :: ':' :: '"' ::
        (st.state.data ++ '"' :: ',' :: '"' :: 'u' :: 's' :: 'e' :: 'r' :: '_' :: 'i' :: 'd' ::
          '"' :: ':' :: '"' ::
          (st.user_id.data ++ '"' :: ',' :: '"' :: 'o' :: 'r' :: 'g' :: '_' :: 'i' :: 'd' ::
            '"' :: ':' :: '"' ::
            (st.org_id.data ++ '"' :: '\x7d' :: [])))) := by
  simp [dumpOAuthState, dumpStringLit, escapeString_id _ h1, escapeString_id _ h2,
    escapeString_id _ h3, String.data_append]

theorem dumpOAuthState_ascii (st : OAuthState) (h1 : asciiSafe st.state = true)
    (h2 : asciiSafe st.user_id = true) (h3 : asciiSafe st.org_id = true) :
    ∀ c ∈ (dumpOAuthState st).data, c.toNat < 128 := by
  intro c hc
  rw [dumpOAuthState_data st h1 h2 h3] at hc
  simp only [List.mem_cons, List.mem_append, List.mem_nil_iff, or_false] at hc
  rcases hc with rfl | rfl | rfl | rfl | rfl | rfl | rfl | rfl | rfl | rfl | hs | rfl | rfl | rfl | rfl | rfl | rfl | rfl | rfl | rfl | rfl | rfl | rfl | rfl | hu | rfl | rfl | rfl | rfl | rfl | rfl | rfl | rfl | rfl | rfl | rfl | rfl | ho | rfl | rfl
  all_goals first
    | decide
    | exact asciiSafe_lt128 _ h1 c hs
    | exact asciiSafe_lt128 _ h2 c hu
    | exact asciiSafe_lt128 _ h3 c ho

theorem parseOAuthState_dump (st : OAuthState) (h1 : asciiSafe st.state = true)
    (h2 : asciiSafe st.user_id = true) (h3 : asciiSafe st.org_id = true) :
    parseOAuthState (dumpOAuthState st) = some st := by
  unfold parseOAuthState parseFlatObj
  rw [dumpOAuthState_data st h1 h2 h3]
  simp only [parseObjAux, Char.reduceEq, reduceIte]
  rw [parseObjAux_strVal _ _ st.state h1]
  simp only [parseObjAux, Char.reduceEq, reduceIte]
  rw [parseObjAux_strVal _ _ st.user_id h2]
  simp only [parseObjAux, Char.reduceEq, reduceIte]
  rw [parseObjAux_strVal _ _ st.org_id h3]
  simp only [parseObjAux, Char.reduceEq, reduceIte]
  rfl

theorem decodeOAuthState_encode (st : OAuthState) (h1 : asciiSafe st.state = true)
    (h2 : asciiSafe st.user_id = true) (h3 : asciiSafe st.org_id = true) :
    decodeOAuthState (base64urlEncode (utf8Encode (dumpOAuthState st))) = some st := by
  unfold decodeOAuthState
  have hb : base64urlDecode (base64urlEncode (utf8Encode (dumpOAuthState st))) =
      some (utf8Encode (dumpOAuthState st)) := by
    unfold base64urlDecode base64urlEncode
    exact b64_roundtrip _ (utf8Encode_lt_256 _)
  rw [hb]
  simp only [Option.some_bind]
  rw [utf8Decode_encode_ascii _ (dumpOAuthState_ascii st h1 h2 h3)]
  simp only [Option.some_bind]
  exact parseOAuthState_dump st h1 h2 h3

/-- C9: for an OAuthState whose three fields are ASCII-safe, encoding as
authorize does (base64url over the JSON serialization) and then decoding
as callback does (base64url decode, UTF-8 decode, JSON validation)
reproduces the identical record. -/
theorem c9_state_encoding_roundtrip (st : OAuthState) (h1 : asciiSafe st.state = true)
    (h2 : asciiSafe st.user_id = true) (h3 : asciiSafe st.org_id = true) :
    decodeOAuthState (base64urlEncode (utf8Encode (dumpOAuthState st))) = some st :=
  decodeOAuthState_encode st h1 h2 h3

/-- Witness for C9 at a concrete record. -/
theorem c9_state_encoding_roundtrip_witness :
    decodeOAuthState (base64urlEncode (utf8Encode (dumpOAuthState ⟨"S", "u1", "o1"⟩))) =
      some ⟨"S", "u1", "o1"⟩ :=
  c9_state_encoding_roundtrip ⟨"S", "u1", "o1"⟩ (by decide) (by decide) (by decide)

/-- C3: for every provider and tuple, authorize followed immediately by a
callback carrying the exact issued state and any non-empty code succeeds
with that code and tuple and deletes the state key; a second callback
with the same state (no intervening authorize) fails with the
state-expired error. Field values are ASCII-safe, the regime of the
serialization round trip. -/
theorem c3_authorize_callback_consumes_state
    (provider user_id org_id stateToken code : String) (expiry : Nat) (kv : KV)
    (h1 : asciiSafe stateToken = true) (h2 : asciiSafe user_id = true)
    (h3 : asciiSafe org_id = true) (hcode : code ≠ "") :
    (standardCallback provider
        [("code", code),
         ("state", (standardAuthorize provider user_id org_id stateToken expiry kv).1.encoded_state)]
        (standardAuthorize provider user_id org_id stateToken expiry kv).2).1 =
      Except.ok ⟨code, user_id, org_id⟩ ∧
    lookupAssoc (standardCallback provider
        [("code", code),
         ("state", (standardAuthorize provider user_id org_id stateToken expiry kv).1.encoded_state)]
        (standardAuthorize provider user_id org_id stateToken expiry kv).2).2.data
      (stateKey provider org_id user_id) = none ∧
    (standardCallback provider
        [("code", code),
         ("state", (standardAuthorize provider user_id org_id stateToken expiry kv).1.encoded_state)]
        (standardCallback provider
          [("code", code),
           ("state", (standardAuthorize provider user_id org_id stateToken expiry kv).1.encoded_state)]
          (standardAuthorize provider user_id org_id stateToken expiry kv).2).2).1 =
      Except.error ⟨400, "State not found or expired"⟩ := by
  have henc : (standardAuthorize provider user_id org_id stateToken expiry kv).1.encoded_state =
      base64urlEncode (utf8Encode (dumpOAuthState ⟨stateToken, user_id, org_id⟩)) := by
    simp [standardAuthorize]
  have hdec : decodeOAuthState
      (standardAuthorize provider user_id org_id stateToken expiry kv).1.encoded_state =
      some ⟨stateToken, user_id, org_id⟩ := by
    rw [henc]
    exact decodeOAuthState_encode ⟨stateToken, user_id, org_id⟩ h1 h2 h3
  have hdata : (standardAuthorize provider user_id org_id stateToken expiry kv).2.data =
      setAssoc kv.data (stateKey provider org_id user_id)
        (dumpOAuthState ⟨stateToken, user_id, org_id⟩) := by
    simp [standardAuthorize, kvSet]
  have hencne :
      (standardAuthorize provider user_id org_id stateToken expiry kv).1.encoded_state ≠ "" := by
    intro h0
    rw [h0, decodeOAuthState_empty] at hdec
    cases hdec
  have hparse : parseOAuthState (dumpOAuthState ⟨stateToken, user_id, org_id⟩) =
      some ⟨stateToken, user_id, org_id⟩ := parseOAuthState_dump _ h1 h2 h3
  have hdne : dumpOAuthState ⟨stateToken, user_id, org_id⟩ ≠ "" := by
    intro h0
    rw [h0, parseOAuthState_empty] at hparse
    cases hparse
  have hge : getParam [("code", code),
      ("state", (standardAuthorize provider user_id org_id stateToken expiry kv).1.encoded_state)]
      "error" = none := by
    simp [getParam, lookupAssoc]
  have hgc : getParam [("code", code),
      ("state", (standardAuthorize provider user_id org_id stateToken expiry kv).1.encoded_state)]
      "code" = some code := by
    simp [getParam, lookupAssoc]
  have hgs : getParam [("code", code),
      ("state", (standardAuthorize provider user_id org_id stateToken expiry kv).1.encoded_state)]
      "state" = some
        (standardAuthorize provider user_id org_id stateToken expiry kv).1.encoded_state := by
    simp [getParam, lookupAssoc]
  have hlook : lookupAssoc
      (standardAuthorize provider user_id org_id stateToken expiry kv).2.data
      (stateKey provider org_id user_id) =
      some (dumpOAuthState ⟨stateToken, user_id, org_id⟩) := by
    rw [hdata]
    exact lookupAssoc_setAssoc_self _ _ _
  have hdata2 : (standardCallback provider
      [("code", code),
       ("state", (standardAuthorize provider user_id org_id stateToken expiry kv).1.encoded_state)]
      (standardAuthorize provider user_id org_id stateToken expiry kv).2).2.data =
      delAssoc (standardAuthorize provider user_id org_id stateToken expiry kv).2.data
        (stateKey provider org_id user_id) := by
    simp [standardCallback, hge, hgc, hgs, truthy, hcode, hdec, hencne, hlook, hdne, hparse,
      kvDelete, kvAfterGet]
  refine ⟨?_, ?_, ?_⟩
  · simp [standardCallback, hge, hgc, hgs, truthy, hcode, hdec, hencne, hlook, hdne, hparse]
  · rw [hdata2, hdata]
    exact lookupAssoc_delAssoc_self _ _
  · have hlook2 : lookupAssoc (standardCallback provider
        [("code", code),
         ("state", (standardAuthorize provider user_id org_id stateToken expiry kv).1.encoded_state)]
        (standardAuthorize provider user_id org_id stateToken expiry kv).2).2.data
        (stateKey provider org_id user_id) = none := by
      rw [hdata2, hdata]
      exact lookupAssoc_delAssoc_self _ _
    generalize hkv2 : (standardCallback provider
        [("code", code),
         ("state", (standardAuthorize provider user_id org_id stateToken expiry kv).1.encoded_state)]
        (standardAuthorize provider user_id org_id stateToken expiry kv).2).2 = kv2 at hlook2 ⊢
    simp [standardCallback, hge, hgc, hgs, truthy, hcode, hdec, hencne, hlook2]

/-- Witness for C3 at a concrete transaction. -/
theorem c3_authorize_callback_consumes_state_witness :
    (standardCallback "notion"
        [("code", "c"),
         ("state", (standardAuthorize "notion" "u" "o" "T" 600 ⟨[], []⟩).1.encoded_state)]
        (standardAuthorize "notion" "u" "o" "T" 600 ⟨[], []⟩).2).1 =
      Except.ok ⟨"c", "u", "o"⟩ ∧
    lookupAssoc (standardCallback "notion"
        [("code", "c"),
         ("state", (standardAuthorize "notion" "u" "o" "T" 600 ⟨[], []⟩).1.encoded_state)]
        (standardAuthorize "notion" "u" "o" "T" 600 ⟨[], []⟩).2).2.data
      (stateKey "notion" "o" "u") = none ∧
    (standardCallback "notion"
        [("code", "c"),
         ("state", (standardAuthorize "notion" "u" "o" "T" 600 ⟨[], []⟩).1.encoded_state)]
        (standardCallback "notion"
          [("code", "c"),
           ("state", (standardAuthorize "notion" "u" "o" "T" 600 ⟨[], []⟩).1.encoded_state)]
          (standardAuthorize "notion" "u" "o" "T" 600 ⟨[], []⟩).2).2).1 =
      Except.error ⟨400, "State not found or expired"⟩ :=
  c3_authorize_callback_consumes_state "notion" "u" "o" "T" "c" 600 ⟨[], []⟩
    (by decide) (by decide) (by decide) (by decide)

theorem wordBE_lt_256 (w : Nat) : ∀ b ∈ wordBE w, b < 256 := by
  intro b hb
  simp [wordBE] at hb
  rcases hb with hb | hb | hb | hb <;> omega

theorem sha256Bytes_lt_256 (msg : List Nat) : ∀ b ∈ sha256Bytes msg, b < 256 := by
  intro b hb
  unfold sha256Bytes at hb
  simp only [List.mem_append] at hb
  rcases hb with ((((((hb | hb) | hb) | hb) | hb) | hb) | hb) | hb <;>
    exact wordBE_lt_256 _ b hb

theorem sha256Bytes_length (msg : List Nat) : (sha256Bytes msg).length = 32 := by
  simp [sha256Bytes, wordBE]

theorem b64Encode_strip_two (bs : List Nat) (h : ∀ b ∈ bs, b < 256)
    (hlen : bs.length % 3 = 2) :
    (b64EncodeBytes bs).filter (fun c => c != '=') ++ ['='] = b64EncodeBytes bs := by
  induction bs using b64EncodeBytes.induct with
  | case1 => simp at hlen
  | case2 b0 => simp at hlen
  | case3 b0 b1 =>
    have hb0 : b0 < 256 := h b0 (by simp)
    have hb1 : b1 < 256 := h b1 (by simp)
    have n1 : (encB64 (b0 / 4) != '=') = true := by
      simp [bne_iff_ne, encB64_ne_pad (b0 / 4) (by omega)]
    have n2 : (encB64 (b0 % 4 * 16 + b1 / 16) != '=') = true := by
      simp [bne_iff_ne, encB64_ne_pad (b0 % 4 * 16 + b1 / 16) (by omega)]
    have n3 : (encB64 (b1 % 16 * 4) != '=') = true := by
      simp [bne_iff_ne, encB64_ne_pad (b1 % 16 * 4) (by omega)]
    simp [b64EncodeBytes, List.filter_cons, n1, n2, n3]
  | case4 b0 b1 b2 rest ih =>
    have hb0 : b0 < 256 := h b0 (by simp)
    have hb1 : b1 < 256 := h b1 (by simp)
    have hb2 : b2 < 256 := h b2 (by simp)
    have hrest : ∀ b ∈ rest, b < 256 := fun b hb => h b (by simp [hb])
    have hlen2 : rest.length % 3 = 2 := by
      simp only [List.length_cons] at hlen
      omega
    have n1 : (encB64 (b0 / 4) != '=') = true := by
      simp [bne_iff_ne, encB64_ne_pad (b0 / 4) (by omega)]
    have n2 : (encB64 (b0 % 4 * 16 + b1 / 16) != '=') = true := by
      simp [bne_iff_ne, encB64_ne_pad (b0 % 4 * 16 + b1 / 16) (by omega)]
    have n3 : (encB64 (b1 % 16 * 4 + b2 / 64) != '=') = true := by
      simp [bne_iff_ne, encB64_ne_pad (b1 % 16 * 4 + b2 / 64) (by omega)]
    have n4 : (encB64 (b2 % 64) != '=') = true := by
      simp [bne_iff_ne, encB64_ne_pad (b2 % 64) (by omega)]
    simp only [b64EncodeBytes, List.filter_cons, n1, n2, n3, n4, if_true, List.cons_append]
    rw [ih hrest hlen2]

/-- C2: for a PKCE transaction (authorize, then callback on the issued
state with the store untouched in between), the callback returns exactly
the code verifier generated at authorize time, and base64url-decoding the
issued code_challenge after restoring its stripped padding yields exactly
the SHA-256 digest of that verifier. -/
theorem c2_pkce_challenge_matches_verifier
    (provider user_id org_id stateToken codeVerifier code : String) (expiry : Nat) (kv : KV)
    (h1 : asciiSafe stateToken = true) (h2 : asciiSafe user_id = true)
    (h3 : asciiSafe org_id = true) (hver : codeVerifier ≠ "") (hcode : code ≠ "") :
    (pkceCallback provider
        [("code", code),
         ("state", (pkceAuthorize provider user_id org_id stateToken codeVerifier expiry
           kv).1.encoded_state)]
        (pkceAuthorize provider user_id org_id stateToken codeVerifier expiry kv).2).1 =
      Except.ok ⟨code, user_id, org_id, codeVerifier⟩ ∧
    base64urlDecode
        ((pkceAuthorize provider user_id org_id stateToken codeVerifier expiry
          kv).1.code_challenge ++ "=") =
      some (sha256Bytes (utf8Encode codeVerifier)) := by
  have henc : (pkceAuthorize provider user_id org_id stateToken codeVerifier expiry
      kv).1.encoded_state =
      base64urlEncode (utf8Encode (dumpOAuthState ⟨stateToken, user_id, org_id⟩)) := by
    simp [pkceAuthorize]
  have hdec : decodeOAuthState
      (pkceAuthorize provider user_id org_id stateToken codeVerifier expiry
        kv).1.encoded_state = some ⟨stateToken, user_id, org_id⟩ := by
    rw [henc]
    exact decodeOAuthState_encode ⟨stateToken, user_id, org_id⟩ h1 h2 h3
  have hdata : (pkceAuthorize provider user_id org_id stateToken codeVerifier expiry
      kv).2.data =
      setAssoc (setAssoc kv.data (stateKey provider org_id user_id)
          (dumpOAuthState ⟨stateToken, user_id, org_id⟩))
        (verifierKey provider org_id user_id) codeVerifier := by
    simp [pkceAuthorize, kvSet]
  have hencne : (pkceAuthorize provider user_id org_id stateToken codeVerifier expiry
      kv).1.encoded_state ≠ "" := by
    intro h0
    rw [h0, decodeOAuthState_empty] at hdec
    cases hdec
  have hparse : parseOAuthState (dumpOAuthState ⟨stateToken, user_id, org_id⟩) =
      some ⟨stateToken, user_id, org_id⟩ := parseOAuthState_dump _ h1 h2 h3
  have hdne : dumpOAuthState ⟨stateToken, user_id, org_id⟩ ≠ "" := by
    intro h0
    rw [h0, parseOAuthState_empty] at hparse
    cases hparse
  have hge : getParam [("code", code),
      ("state", (pkceAuthorize provider user_id org_id stateToken codeVerifier expiry
        kv).1.encoded_state)] "error" = none := by
    simp [getParam, lookupAssoc]
  have hgc : getParam [("code", code),
      ("state", (pkceAuthorize provider user_id org_id stateToken codeVerifier expiry
        kv).1.encoded_state)] "code" = some code := by
    simp [getParam, lookupAssoc]
  have hgs : getParam [("code", code),
      ("state", (pkceAuthorize provider user_id org_id stateToken codeVerifier expiry
        kv).1.encoded_state)] "state" = some
        (pkceAuthorize provider user_id org_id stateToken codeVerifier expiry
          kv).1.encoded_state := by
    simp [getParam, lookupAssoc]
  have hlook : lookupAssoc
      (pkceAuthorize provider user_id org_id stateToken codeVerifier expiry kv).2.data
      (stateKey provider org_id user_id) =
      some (dumpOAuthState ⟨stateToken, user_id, org_id⟩) := by
    rw [hdata]
    rw [lookupAssoc_setAssoc_ne _ _ _ _ (stateKey_ne_verifierKey provider org_id user_id
      org_id user_id)]
    exact lookupAssoc_setAssoc_self _ _ _
  have hstd1 : (standardCallback provider
      [("code", code),
       ("state", (pkceAuthorize provider user_id org_id stateToken codeVerifier expiry
         kv).1.encoded_state)]
      (pkceAuthorize provider user_id org_id stateToken codeVerifier expiry kv).2).1 =
      Except.ok ⟨code, user_id, org_id⟩ := by
    simp [standardCallback, hge, hgc, hgs, truthy, hcode, hdec, hencne, hlook, hdne, hparse]
  have hstd2 : (standardCallback provider
      [("code", code),
       ("state", (pkceAuthorize provider user_id org_id stateToken codeVerifier expiry
         kv).1.encoded_state)]
      (pkceAuthorize provider user_id org_id stateToken codeVerifier expiry kv).2).2.data =
      delAssoc (pkceAuthorize provider user_id org_id stateToken codeVerifier expiry
          kv).2.data (stateKey provider org_id user_id) := by
    simp [standardCallback, hge, hgc, hgs, truthy, hcode, hdec, hencne, hlook, hdne, hparse,
      kvDelete, kvAfterGet]
  constructor
  · have hx : standardCallback provider
        [("code", code),
         ("state", (pkceAuthorize provider user_id org_id stateToken codeVerifier expiry
           kv).1.encoded_state)]
        (pkceAuthorize provider user_id org_id stateToken codeVerifier expiry kv).2 =
        (Except.ok ⟨code, user_id, org_id⟩, (standardCallback provider
          [("code", code),
           ("state", (pkceAuthorize provider user_id org_id stateToken codeVerifier expiry
             kv).1.encoded_state)]
          (pkceAuthorize provider user_id org_id stateToken codeVerifier expiry kv).2).2) := by
      rw [← hstd1]
    have hlookv : lookupAssoc (standardCallback provider
        [("code", code),
         ("state", (pkceAuthorize provider user_id org_id stateToken codeVerifier expiry
           kv).1.encoded_state)]
        (pkceAuthorize provider user_id org_id stateToken codeVerifier expiry kv).2).2.data
        (verifierKey provider org_id user_id) = some codeVerifier := by
      rw [hstd2, hdata]
      rw [lookupAssoc_delAssoc_ne _ _ _ (fun hc =>
        stateKey_ne_verifierKey provider org_id user_id org_id user_id hc.symm)]
      exact lookupAssoc_setAssoc_self _ _ _
    unfold pkceCallback
    rw [hx]
    simp [hlookv, hver]
  · have hch : (pkceAuthorize provider user_id org_id stateToken codeVerifier expiry
        kv).1.code_challenge =
        stripPad (base64urlEncode (sha256Bytes (utf8Encode codeVerifier))) := by
      simp [pkceAuthorize]
    rw [hch]
    have hpad : (stripPad (base64urlEncode (sha256Bytes (utf8Encode codeVerifier))) ++
        "=").data = b64EncodeBytes (sha256Bytes (utf8Encode codeVerifier)) := by
      rw [String.data_append]
      show (b64EncodeBytes (sha256Bytes (utf8Encode codeVerifier))).filter
          (fun c => c != '=') ++ ['='] = _
      exact b64Encode_strip_two _ (sha256Bytes_lt_256 _)
        (by rw [sha256Bytes_length])
    unfold base64urlDecode
    rw [hpad]
    exact b64_roundtrip _ (sha256Bytes_lt_256 _)

/-- Witness for C2 at a concrete PKCE transaction. -/
theorem c2_pkce_challenge_matches_verifier_witness :
    (pkceCallback "airtable"
        [("code", "c"),
         ("state", (pkceAuthorize "airtable" "u" "o" "T" "V" 600 ⟨[], []⟩).1.encoded_state)]
        (pkceAuthorize "airtable" "u" "o" "T" "V" 600 ⟨[], []⟩).2).1 =
      Except.ok ⟨"c", "u", "o", "V"⟩ ∧
    base64urlDecode
        ((pkceAuthorize "airtable" "u" "o" "T" "V" 600 ⟨[], []⟩).1.code_challenge ++ "=") =
      some (sha256Bytes (utf8Encode "V")) :=
  c2_pkce_challenge_matches_verifier "airtable" "u" "o" "T" "V" "c" 600 ⟨[], []⟩
    (by decide) (by decide) (by decide) (by decide) (by decide)

/-- C8: get_adapter fails with the KeyError for an unregistered name, a
second register_adapter under the same name wins every later lookup of
that name, and re-registration leaves every other entry unchanged. -/
theorem c8_registry_lookup_and_last_writer_wins {α : Type}
    (reg : List (String × α)) (name : String) (a1 a2 : α) :
    (lookupAssoc reg (strLower name) = none →
      getAdapter reg name = Except.error ("No adapter registered for " ++ name)) ∧
    getAdapter (registerAdapter (registerAdapter reg name a1) name a2) name = Except.ok a2 ∧
    ∀ other : String, strLower other ≠ strLower name →
      getAdapter (registerAdapter (registerAdapter reg name a1) name a2) other =
        getAdapter (registerAdapter reg name a1) other := by
  refine ⟨fun h => ?_, ?_, fun other hne => ?_⟩
  · simp [getAdapter, h]
  · simp [getAdapter, registerAdapter, lookupAssoc_setAssoc_self]
  · simp only [getAdapter, registerAdapter]
    rw [lookupAssoc_setAssoc_ne _ _ _ _ hne]

/-- Witness for C8 at a concrete registry. -/
theorem c8_registry_lookup_and_last_writer_wins_witness :
    getAdapter ([] : List (String × Nat)) "X" =
      Except.error ("No adapter registered for " ++ "X") ∧
    getAdapter (registerAdapter (registerAdapter ([] : List (String × Nat)) "X" 1) "X" 2) "X" =
      Except.ok 2 ∧
    getAdapter (registerAdapter (registerAdapter ([] : List (String × Nat)) "X" 1) "X" 2) "Y" =
      getAdapter (registerAdapter ([] : List (String × Nat)) "X" 1) "Y" :=
  ⟨(c8_registry_lookup_and_last_writer_wins [] "X" 1 2).1 (by decide),
   (c8_registry_lookup_and_last_writer_wins [] "X" 1 2).2.1,
   (c8_registry_lookup_and_last_writer_wins [] "X" 1 2).2.2 "Y" (by decide)⟩

/-- C10: the registry is keyed by lower-cased names: after register_adapter
with name n, get_adapter succeeds for every spelling with the same
lower-casing; the empty registry satisfies the all-keys-lowercase
invariant and every register_adapter call preserves it, so every name
returned by list_adapters equals its own lower-casing. -/
theorem c10_registry_lowercase_invariant {α : Type} :
    (∀ (reg : List (String × α)) (n : String) (a : α) (s : String),
        strLower s = strLower n →
        getAdapter (registerAdapter reg n a) s = Except.ok a) ∧
    registryWF ([] : List (String × α)) ∧
    (∀ (reg : List (String × α)) (n : String) (a : α),
        registryWF reg → registryWF (registerAdapter reg n a)) := by
  refine ⟨fun reg n a s h => ?_, ?_, fun reg n a hwf => ?_⟩
  · simp only [getAdapter, registerAdapter]
    rw [h, lookupAssoc_setAssoc_self]
  · intro k hk
    simp [listAdapters] at hk
  · intro k hk
    simp only [registerAdapter, setAssoc, listAdapters, List.map_cons, List.mem_cons] at hk
    rcases hk with hk | hk
    · rw [hk]; exact strLower_idem n
    · apply hwf
      simp only [listAdapters]
      rcases List.mem_map.mp hk with ⟨kv, hmem, hfst⟩
      exact List.mem_map.mpr ⟨kv, (List.mem_filter.mp hmem).1, hfst⟩

theorem parseAirtableCredentials_empty : parseAirtableCredentials "" = none := rfl

theorem parseHubSpotCredentials_empty : parseHubSpotCredentials "" = none := rfl

theorem parseNotionCredentials_empty : parseNotionCredentials "" = none := rfl

/-- C4: for each provider adapter, when a credentials value (a string the
adapter credential model validates) is stored under the credentials key of
(user_id, org_id), the first get_credentials call returns it and deletes
the key, and a second call without an intervening callback fails with the
no-credentials error. -/
theorem c4_get_credentials_single_read (user_id org_id v : String) (kv : KV) :
    (∀ c : AirtableCredentials,
      lookupAssoc kv.data ("airtable_credentials:" ++ org_id ++ ":" ++ user_id) = some v →
      parseAirtableCredentials v = some c →
      (airtableGetCredentials user_id org_id kv).1 = Except.ok c ∧
      lookupAssoc (airtableGetCredentials user_id org_id kv).2.data
        ("airtable_credentials:" ++ org_id ++ ":" ++ user_id) = none ∧
      (airtableGetCredentials user_id org_id (airtableGetCredentials user_id org_id kv).2).1 =
        Except.error ⟨400, "No credentials found."⟩) ∧
    (∀ c : HubSpotCredentials,
      lookupAssoc kv.data ("hubspot_credentials:" ++ org_id ++ ":" ++ user_id) = some v →
      parseHubSpotCredentials v = some c →
      (hubspotGetCredentials user_id org_id kv).1 = Except.ok c ∧
      lookupAssoc (hubspotGetCredentials user_id org_id kv).2.data
        ("hubspot_credentials:" ++ org_id ++ ":" ++ user_id) = none ∧
      (hubspotGetCredentials user_id org_id (hubspotGetCredentials user_id org_id kv).2).1 =
        Except.error ⟨400, "No credentials found."⟩) ∧
    (∀ c : NotionCredentials,
      lookupAssoc kv.data ("notion_credentials:" ++ org_id ++ ":" ++ user_id) = some v →
      parseNotionCredentials v = some c →
      (notionGetCredentials user_id org_id kv).1 = Except.ok c ∧
      lookupAssoc (notionGetCredentials user_id org_id kv).2.data
        ("notion_credentials:" ++ org_id ++ ":" ++ user_id) = none ∧
      (notionGetCredentials user_id org_id (notionGetCredentials user_id org_id kv).2).1 =
        Except.error ⟨400, "No credentials found."⟩) := by
  refine ⟨fun c h1 h2 => ?_, fun c h1 h2 => ?_, fun c h1 h2 => ?_⟩
  · have hv : ¬ v = "" := by
      intro hveq; subst hveq; rw [parseAirtableCredentials_empty] at h2; cases h2
    simp only [airtableGetCredentials, kvAfterGet, h1, if_neg hv, h2,
      lookupAssoc_delAssoc_self, kvDelete]
    exact ⟨by trivial, by trivial, by trivial⟩
  · have hv : ¬ v = "" := by
      intro hveq; subst hveq; rw [parseHubSpotCredentials_empty] at h2; cases h2
    simp only [hubspotGetCredentials, kvAfterGet, h1, if_neg hv, h2,
      lookupAssoc_delAssoc_self, kvDelete]
    exact ⟨by trivial, by trivial, by trivial⟩
  · have hv : ¬ v = "" := by
      intro hveq; subst hveq; rw [parseNotionCredentials_empty] at h2; cases h2
    simp only [notionGetCredentials, kvAfterGet, h1, if_neg hv, h2,
      lookupAssoc_delAssoc_self, kvDelete]
    exact ⟨by trivial, by trivial, by trivial⟩

/-- Witness for C4 at a concrete store and credential value. -/
theorem c4_get_credentials_single_read_witness :
    (airtableGetCredentials "u" "o"
      ⟨[("airtable_credentials:o:u", "\x7b\"access_token\":\"A\"\x7d")], []⟩).1 =
      Except.ok ⟨"A", none, none, none⟩ :=
  ((c4_get_credentials_single_read "u" "o" "\x7b\"access_token\":\"A\"\x7d"
      ⟨[("airtable_credentials:o:u", "\x7b\"access_token\":\"A\"\x7d")], []⟩).1
    ⟨"A", none, none, none⟩ (by decide) (by decide)).1

/-- C1: the validation cascade of StandardOAuthStrategy.callback, in source
order, with the first failing check determining the error: provider error,
missing code, missing state, undecodable state, expired state, mismatched
state token, and finally success, which deletes the stored state key and
touches no other key. A stored value that does not validate as an
OAuthState (impossible for a store written only by authorize) escapes as
an uncaught validation error and is outside the cascade. -/
theorem c1_callback_validation_cascade (provider : String) (params : Params) (kv : KV) :
    (truthy (getParam params "error") = true →
      (standardCallback provider params kv).1 =
        Except.error ⟨400, (getParam params "error_description").getD "OAuth error"⟩) ∧
    (truthy (getParam params "error") = false →
      (getParam params "code").getD "" = "" →
      (standardCallback provider params kv).1 =
        Except.error ⟨400, "Authorization code not provided"⟩) ∧
    (truthy (getParam params "error") = false →
      (getParam params "code").getD "" ≠ "" →
      (getParam params "state").getD "" = "" →
      (standardCallback provider params kv).1 =
        Except.error ⟨400, "State parameter not provided"⟩) ∧
    (truthy (getParam params "error") = false →
      (getParam params "code").getD "" ≠ "" →
      (getParam params "state").getD "" ≠ "" →
      decodeOAuthState ((getParam params "state").getD "") = none →
      (standardCallback provider params kv).1 =
        Except.error ⟨400, "Invalid state parameter"⟩) ∧
    (∀ st : OAuthState,
      truthy (getParam params "error") = false →
      (getParam params "code").getD "" ≠ "" →
      decodeOAuthState ((getParam params "state").getD "") = some st →
      lookupAssoc kv.data (stateKey provider st.org_id st.user_id) = none →
      (standardCallback provider params kv).1 =
        Except.error ⟨400, "State not found or expired"⟩) ∧
    (∀ (st sv : OAuthState) (v : String),
      truthy (getParam params "error") = false →
      (getParam params "code").getD "" ≠ "" →
      decodeOAuthState ((getParam params "state").getD "") = some st →
      lookupAssoc kv.data (stateKey provider st.org_id st.user_id) = some v →
      parseOAuthState v = some sv →
      sv.state ≠ st.state →
      (standardCallback provider params kv).1 = Except.error ⟨400, "State mismatch"⟩) ∧
    (∀ (st sv : OAuthState) (v : String),
      truthy (getParam params "error") = false →
      (getParam params "code").getD "" ≠ "" →
      decodeOAuthState ((getParam params "state").getD "") = some st →
      lookupAssoc kv.data (stateKey provider st.org_id st.user_id) = some v →
      parseOAuthState v = some sv →
      sv.state = st.state →
      (standardCallback provider params kv).1 =
        Except.ok ⟨(getParam params "code").getD "", st.user_id, st.org_id⟩ ∧
      lookupAssoc (standardCallback provider params kv).2.data
        (stateKey provider st.org_id st.user_id) = none ∧
      ∀ k, k ≠ stateKey provider st.org_id st.user_id →
        lookupAssoc (standardCallback provider params kv).2.data k =
          lookupAssoc kv.data k) := by
  refine ⟨fun he => ?_, fun he hc => ?_, fun he hc hs => ?_, fun he hc hs hd => ?_,
    fun st he hc hd hl => ?_, fun st sv v he hc hd hl hp hm => ?_,
    fun st sv v he hc hd hl hp hm => ?_⟩
  · simp [standardCallback, he]
  · simp [standardCallback, he, hc]
  · simp [standardCallback, he, hc, hs]
  · simp [standardCallback, he, hc, hs, hd]
  · have hs : (getParam params "state").getD "" ≠ "" := by
      intro h0; rw [h0, decodeOAuthState_empty] at hd; cases hd
    simp [standardCallback, he, hc, hs, hd, kvAfterGet, hl]
  · have hs : (getParam params "state").getD "" ≠ "" := by
      intro h0; rw [h0, decodeOAuthState_empty] at hd; cases hd
    have hv : v ≠ "" := by
      intro h0; rw [h0, parseOAuthState_empty] at hp; cases hp
    simp [standardCallback, he, hc, hs, hd, kvAfterGet, hl, hv, hp, hm]
  · have hs : (getParam params "state").getD "" ≠ "" := by
      intro h0; rw [h0, decodeOAuthState_empty] at hd; cases hd
    have hv : v ≠ "" := by
      intro h0; rw [h0, parseOAuthState_empty] at hp; cases hp
    refine ⟨?_, ?_, fun k hk => ?_⟩
    · simp [standardCallback, he, hc, hs, hd, kvAfterGet, hl, hv, hp, hm]
    · simp [standardCallback, he, hc, hs, hd, kvAfterGet, hl, hv, hp, hm, kvDelete,
        lookupAssoc_delAssoc_self]
    · simp only [standardCallback, he, hc, hs, hd, kvAfterGet, hl, hv, hp, hm]
      simp [kvDelete, hv, hm, lookupAssoc_delAssoc_ne _ _ _ hk]

/-- Witness for C1 on a concrete request for each cascade stage: the
denied-error stage and the success stage. -/
theorem c1_callback_validation_cascade_witness :
    (standardCallback "notion" [("error", "access_denied"), ("error_description", "nope")]
      ⟨[], []⟩).1 = Except.error ⟨400, "nope"⟩ ∧
    (standardCallback "notion"
      [("code", "c"), ("state", "eyJzdGF0ZSI6IlQiLCJ1c2VyX2lkIjoidSIsIm9yZ19pZCI6Im8ifQ==")]
      ⟨[("notion_state:o:u", "\x7b\"state\":\"T\",\"user_id\":\"u\",\"org_id\":\"o\"\x7d")],
        []⟩).1 = Except.ok ⟨"c", "u", "o"⟩ :=
  ⟨(c1_callback_validation_cascade "notion"
      [("error", "access_denied"), ("error_description", "nope")] ⟨[], []⟩).1 (by decide),
   ((c1_callback_validation_cascade "notion"
      [("code", "c"), ("state", "eyJzdGF0ZSI6IlQiLCJ1c2VyX2lkIjoidSIsIm9yZ19pZCI6Im8ifQ==")]
      ⟨[("notion_state:o:u", "\x7b\"state\":\"T\",\"user_id\":\"u\",\"org_id\":\"o\"\x7d")],
        []⟩).2.2.2.2.2.2 ⟨"T", "u", "o"⟩ ⟨"T", "u", "o"⟩
      "\x7b\"state\":\"T\",\"user_id\":\"u\",\"org_id\":\"o\"\x7d"
      (by decide) (by decide) (by decide) (by decide) (by decide) rfl).1⟩

/-- C6: a callback whose state parameter decodes to a well-formed
OAuthState whose token differs from the token stored under the
transaction state key fails with the state-mismatch error and leaves the
store contents completely unchanged: the stored state entry is neither
deleted nor overwritten. -/
theorem c6_state_mismatch_preserves_store (provider : String) (params : Params) (kv : KV)
    (st sv : OAuthState) (v : String)
    (he : truthy (getParam params "error") = false)
    (hc : (getParam params "code").getD "" ≠ "")
    (hd : decodeOAuthState ((getParam params "state").getD "") = some st)
    (hl : lookupAssoc kv.data (stateKey provider st.org_id st.user_id) = some v)
    (hp : parseOAuthState v = some sv)
    (hm : sv.state ≠ st.state) :
    (standardCallback provider params kv).1 = Except.error ⟨400, "State mismatch"⟩ ∧
    (standardCallback provider params kv).2.data = kv.data := by
  have hs : (getParam params "state").getD "" ≠ "" := by
    intro h0; rw [h0, decodeOAuthState_empty] at hd; cases hd
  have hv : v ≠ "" := by
    intro h0; rw [h0, parseOAuthState_empty] at hp; cases hp
  constructor
  · simp [standardCallback, he, hc, hs, hd, kvAfterGet, hl, hv, hp, hm]
  · simp [standardCallback, he, hc, hs, hd, kvAfterGet, hl, hv, hp, hm]

/-- Witness for C6 on a concrete mismatched request. -/
theorem c6_state_mismatch_preserves_store_witness :
    (standardCallback "notion"
      [("code", "c"), ("state", "eyJzdGF0ZSI6IlgiLCJ1c2VyX2lkIjoidSIsIm9yZ19pZCI6Im8ifQ==")]
      ⟨[("notion_state:o:u", "\x7b\"state\":\"T\",\"user_id\":\"u\",\"org_id\":\"o\"\x7d")],
        []⟩).1 = Except.error ⟨400, "State mismatch"⟩ ∧
    (standardCallback "notion"
      [("code", "c"), ("state", "eyJzdGF0ZSI6IlgiLCJ1c2VyX2lkIjoidSIsIm9yZ19pZCI6Im8ifQ==")]
      ⟨[("notion_state:o:u", "\x7b\"state\":\"T\",\"user_id\":\"u\",\"org_id\":\"o\"\x7d")],
        []⟩).2.data =
      [("notion_state:o:u", "\x7b\"state\":\"T\",\"user_id\":\"u\",\"org_id\":\"o\"\x7d")] :=
  c6_state_mismatch_preserves_store "notion"
    [("code", "c"), ("state", "eyJzdGF0ZSI6IlgiLCJ1c2VyX2lkIjoidSIsIm9yZ19pZCI6Im8ifQ==")]
    ⟨[("notion_state:o:u", "\x7b\"state\":\"T\",\"user_id\":\"u\",\"org_id\":\"o\"\x7d")], []⟩
    ⟨"X", "u", "o"⟩ ⟨"T", "u", "o"⟩
    "\x7b\"state\":\"T\",\"user_id\":\"u\",\"org_id\":\"o\"\x7d"
    (by decide) (by decide) (by decide) (by decide) (by decide) (by decide)

/-- C5: for each provider adapter, when the strategy callback has succeeded
and the token-exchange response status is not 2xx, oauth_callback fails
with the token-exchange error and writes no credentials key: every
credentials key holds the same value after the call as before it. The
code rejects every non-200 status, so in particular every non-2xx one. -/
theorem c5_token_exchange_failure_writes_no_credentials
    (params : Params) (tokenStatus : Nat) (tokenBody : List (String × JVal))
    (credExpiry : Nat) (kv : KV) (hst : tokenStatus / 100 ≠ 2) :
    (∀ r : PkceCallbackResult, (pkceCallback "airtable" params kv).1 = Except.ok r →
      (airtableOauthCallback params tokenStatus tokenBody credExpiry kv).1 =
        Except.error ⟨400, "Failed to exchange code for token."⟩ ∧
      ∀ o u, lookupAssoc
          (airtableOauthCallback params tokenStatus tokenBody credExpiry kv).2.data
          ("airtable_credentials:" ++ o ++ ":" ++ u) =
        lookupAssoc kv.data ("airtable_credentials:" ++ o ++ ":" ++ u)) ∧
    (∀ r : StdCallbackResult, (standardCallback "hubspot" params kv).1 = Except.ok r →
      (hubspotOauthCallback params tokenStatus tokenBody credExpiry kv).1 =
        Except.error ⟨500, "Failed to exchange authorization code for token"⟩ ∧
      ∀ o u, lookupAssoc
          (hubspotOauthCallback params tokenStatus tokenBody credExpiry kv).2.data
          ("hubspot_credentials:" ++ o ++ ":" ++ u) =
        lookupAssoc kv.data ("hubspot_credentials:" ++ o ++ ":" ++ u)) ∧
    (∀ r : StdCallbackResult, (standardCallback "notion" params kv).1 = Except.ok r →
      (notionOauthCallback params tokenStatus tokenBody credExpiry kv).1 =
        Except.error ⟨400, "Failed to exchange code for token."⟩ ∧
      ∀ o u, lookupAssoc
          (notionOauthCallback params tokenStatus tokenBody credExpiry kv).2.data
          ("notion_credentials:" ++ o ++ ":" ++ u) =
        lookupAssoc kv.data ("notion_credentials:" ++ o ++ ":" ++ u)) := by
  have h200 : tokenStatus ≠ 200 := by omega
  refine ⟨fun r h => ?_, fun r h => ?_, fun r h => ?_⟩
  · have hx : pkceCallback "airtable" params kv =
        (Except.ok r, (pkceCallback "airtable" params kv).2) := by
      rw [← h]
    have hdata := pkceCallback_ok_data "airtable" params kv r h
    constructor
    · unfold airtableOauthCallback
      rw [hx]
      simp [h200]
    · intro o u
      unfold airtableOauthCallback
      rw [hx]
      simp only [h200, bne_iff_ne, ne_eq, not_false_eq_true, if_true, httpPost]
      rw [hdata]
      have ec : ("airtable_credentials:" : String) = "airtable" ++ "_credentials:" := rfl
      rw [ec,
        lookupAssoc_delAssoc_ne _ _ _
          (credKey_ne_verifierKey "airtable" o u r.org_id r.user_id),
        lookupAssoc_delAssoc_ne _ _ _
          (credKey_ne_stateKey "airtable" o u r.org_id r.user_id)]
  · have hx : standardCallback "hubspot" params kv =
        (Except.ok r, (standardCallback "hubspot" params kv).2) := by
      rw [← h]
    have hdata := standardCallback_ok_data "hubspot" params kv r h
    constructor
    · unfold hubspotOauthCallback
      rw [hx]
      simp [h200]
    · intro o u
      unfold hubspotOauthCallback
      rw [hx]
      simp only [h200, bne_iff_ne, ne_eq, not_false_eq_true, if_true, httpPost]
      rw [hdata]
      have ec : ("hubspot_credentials:" : String) = "hubspot" ++ "_credentials:" := rfl
      rw [ec,
        lookupAssoc_delAssoc_ne _ _ _
          (credKey_ne_stateKey "hubspot" o u r.org_id r.user_id)]
  · have hx : standardCallback "notion" params kv =
        (Except.ok r, (standardCallback "notion" params kv).2) := by
      rw [← h]
    have hdata := standardCallback_ok_data "notion" params kv r h
    constructor
    · unfold notionOauthCallback
      rw [hx]
      simp [h200]
    · intro o u
      unfold notionOauthCallback
      rw [hx]
      simp only [h200, bne_iff_ne, ne_eq, not_false_eq_true, if_true, httpPost]
      rw [hdata]
      have ec : ("notion_credentials:" : String) = "notion" ++ "_credentials:" := rfl
      rw [ec,
        lookupAssoc_delAssoc_ne _ _ _
          (credKey_ne_stateKey "notion" o u r.org_id r.user_id)]

/-- Witness for C5 on a concrete failing token exchange. -/
theorem c5_token_exchange_failure_writes_no_credentials_witness :
    (notionOauthCallback
      [("code", "c"), ("state", "eyJzdGF0ZSI6IlQiLCJ1c2VyX2lkIjoidSIsIm9yZ19pZCI6Im8ifQ==")]
      403 [] 600
      ⟨[("notion_state:o:u", "\x7b\"state\":\"T\",\"user_id\":\"u\",\"org_id\":\"o\"\x7d")],
        []⟩).1 = Except.error ⟨400, "Failed to exchange code for token."⟩ ∧
    lookupAssoc (notionOauthCallback
      [("code", "c"), ("state", "eyJzdGF0ZSI6IlQiLCJ1c2VyX2lkIjoidSIsIm9yZ19pZCI6Im8ifQ==")]
      403 [] 600
      ⟨[("notion_state:o:u", "\x7b\"state\":\"T\",\"user_id\":\"u\",\"org_id\":\"o\"\x7d")],
        []⟩).2.data ("notion_credentials:" ++ "o" ++ ":" ++ "u") =
      lookupAssoc
        [("notion_state:o:u", "\x7b\"state\":\"T\",\"user_id\":\"u\",\"org_id\":\"o\"\x7d")]
        ("notion_credentials:" ++ "o" ++ ":" ++ "u") :=
  ⟨((c5_token_exchange_failure_writes_no_credentials
      [("code", "c"), ("state", "eyJzdGF0ZSI6IlQiLCJ1c2VyX2lkIjoidSIsIm9yZ19pZCI6Im8ifQ==")]
      403 [] 600
      ⟨[("notion_state:o:u", "\x7b\"state\":\"T\",\"user_id\":\"u\",\"org_id\":\"o\"\x7d")], []⟩
      (by decide)).2.2 ⟨"c", "u", "o"⟩ (by rfl)).1,
   ((c5_token_exchange_failure_writes_no_credentials
      [("code", "c"), ("state", "eyJzdGF0ZSI6IlQiLCJ1c2VyX2lkIjoidSIsIm9yZ19pZCI6Im8ifQ==")]
      403 [] 600
      ⟨[("notion_state:o:u", "\x7b\"state\":\"T\",\"user_id\":\"u\",\"org_id\":\"o\"\x7d")], []⟩
      (by decide)).2.2 ⟨"c", "u", "o"⟩ (by rfl)).2 "o" "u"⟩

/-- Witness for C10 at a concrete registry. -/
theorem c10_registry_lowercase_invariant_witness :
    getAdapter (registerAdapter ([] : List (String × Nat)) "X" 5) "x" = Except.ok 5 ∧
    registryWF (registerAdapter ([] : List (String × Nat)) "HubSpot" 7) :=
  ⟨(c10_registry_lowercase_invariant (α := Nat)).1 [] "X" 5 "x" (by decide),
   (c10_registry_lowercase_invariant (α := Nat)).2.2 [] "HubSpot" 7
     (c10_registry_lowercase_invariant (α := Nat)).2.1⟩

theorem eventsOrdered_nil (P Q : Event → Prop) : eventsOrdered [] P Q := by
  intro i j e f hi hj hP hQ
  simp at hi

theorem eventsOrdered_of_split (L1 L2 : List Event) (P Q : Event → Prop)
    (h1 : ∀ e ∈ L2, ¬ P e) (h2 : ∀ e ∈ L1, ¬ Q e) :
    eventsOrdered (L1 ++ L2) P Q := by
  intro i j e f hi hj hP hQ
  by_cases hilt : i < L1.length
  · by_cases hjlt : j < L1.length
    · exfalso
      rw [List.getElem?_append_left hjlt] at hj
      exact h2 f (List.getElem?_mem hj) hQ
    · omega
  · exfalso
    rw [List.getElem?_append_right (by omega)] at hi
    exact h1 e (List.getElem?_mem hi) hP

theorem isStateOp_not_verifier_get (p o u : String) :
    ¬ isStateOp p (Event.get (verifierKey p o u)) := by
  rintro ⟨o2, u2, h | h | h⟩
  · injection h with h2
    exact stateKey_ne_verifierKey p o2 u2 o u h2.symm
  · cases h
  · cases h

theorem isStateOp_not_verifier_del (p o u : String) :
    ¬ isStateOp p (Event.del (verifierKey p o u)) := by
  rintro ⟨o2, u2, h | h | h⟩
  · cases h
  · cases h
  · injection h with h2
    exact stateKey_ne_verifierKey p o2 u2 o u h2.symm

theorem isStateOp_not_post (p url : String) : ¬ isStateOp p (Event.post url) := by
  rintro ⟨o2, u2, h | h | h⟩ <;> cases h

theorem isStateOp_not_cred_set (p o u : String) :
    ¬ isStateOp p (Event.set (p ++ "_credentials:" ++ o ++ ":" ++ u)) := by
  rintro ⟨o2, u2, h | h | h⟩
  · cases h
  · injection h with h2
    exact credKey_ne_stateKey p o u o2 u2 h2
  · cases h

theorem isVerifierOp_not_state_get (p o u : String) :
    ¬ isVerifierOp p (Event.get (stateKey p o u)) := by
  rintro ⟨o2, u2, h | h | h⟩
  · injection h with h2
    exact stateKey_ne_verifierKey p o u o2 u2 h2
  · cases h
  · cases h

theorem isVerifierOp_not_state_del (p o u : String) :
    ¬ isVerifierOp p (Event.del (stateKey p o u)) := by
  rintro ⟨o2, u2, h | h | h⟩
  · cases h
  · cases h
  · injection h with h2
    exact stateKey_ne_verifierKey p o u o2 u2 h2

theorem isVerifierOp_not_post (p url : String) : ¬ isVerifierOp p (Event.post url) := by
  rintro ⟨o2, u2, h | h | h⟩ <;> cases h

theorem isVerifierOp_not_cred_set (p o u : String) :
    ¬ isVerifierOp p (Event.set (p ++ "_credentials:" ++ o ++ ":" ++ u)) := by
  rintro ⟨o2, u2, h | h | h⟩
  · cases h
  · injection h with h2
    exact credKey_ne_verifierKey p o u o2 u2 h2
  · cases h

theorem isPostEv_not_get (k : String) : ¬ isPostEv (Event.get k) := by
  rintro ⟨url, h⟩; cases h

theorem isPostEv_not_set (k : String) : ¬ isPostEv (Event.set k) := by
  rintro ⟨url, h⟩; cases h

theorem isPostEv_not_del (k : String) : ¬ isPostEv (Event.del k) := by
  rintro ⟨url, h⟩; cases h

theorem isStateGet_not_del (k : String) (p : String) : ¬ isStateGet p (Event.del k) := by
  rintro ⟨o2, u2, h⟩; cases h

theorem isStateGet_not_set (k : String) (p : String) : ¬ isStateGet p (Event.set k) := by
  rintro ⟨o2, u2, h⟩; cases h

theorem isStateGet_not_post (url : String) (p : String) :
    ¬ isStateGet p (Event.post url) := by
  rintro ⟨o2, u2, h⟩; cases h

theorem isStateGet_not_verifier (p o u : String) :
    ¬ isStateGet p (Event.get (verifierKey p o u)) := by
  rintro ⟨o2, u2, h⟩
  injection h with h2
  exact stateKey_ne_verifierKey p o2 u2 o u h2.symm

theorem isStateDel_not_get (k : String) (p : String) : ¬ isStateDel p (Event.get k) := by
  rintro ⟨o2, u2, h⟩; cases h

theorem isStateDel_not_set (k : String) (p : String) : ¬ isStateDel p (Event.set k) := by
  rintro ⟨o2, u2, h⟩; cases h

theorem isStateDel_not_post (url : String) (p : String) :
    ¬ isStateDel p (Event.post url) := by
  rintro ⟨o2, u2, h⟩; cases h

theorem isStateDel_not_verifier (p o u : String) :
    ¬ isStateDel p (Event.del (verifierKey p o u)) := by
  rintro ⟨o2, u2, h⟩
  injection h with h2
  exact stateKey_ne_verifierKey p o2 u2 o u h2.symm

theorem standardCallback_log_shape (provider : String) (params : Params)
    (d : List (String × String)) :
    ∃ o u,
      ((standardCallback provider params ⟨d, []⟩).2.log = [] ∧
        ∃ e, (standardCallback provider params ⟨d, []⟩).1 = Except.error e) ∨
      ((standardCallback provider params ⟨d, []⟩).2.log =
          [Event.get (stateKey provider o u)] ∧
        ∃ e, (standardCallback provider params ⟨d, []⟩).1 = Except.error e) ∨
      ((standardCallback provider params ⟨d, []⟩).2.log =
          [Event.get (stateKey provider o u), Event.del (stateKey provider o u)] ∧
        ∃ r, (standardCallback provider params ⟨d, []⟩).1 = Except.ok r ∧
          r.org_id = o ∧ r.user_id = u) := by
  by_cases h1 : truthy (getParam params "error") = true
  · exact ⟨"", "", Or.inl ⟨by simp [standardCallback, h1],
      ⟨400, (getParam params "error_description").getD "OAuth error"⟩,
      by simp [standardCallback, h1]⟩⟩
  · by_cases h2 : (getParam params "code").getD "" = ""
    · exact ⟨"", "", Or.inl ⟨by simp [standardCallback, h1, h2],
        ⟨400, "Authorization code not provided"⟩,
        by simp [standardCallback, h1, h2]⟩⟩
    · by_cases h3 : (getParam params "state").getD "" = ""
      · exact ⟨"", "", Or.inl ⟨by simp [standardCallback, h1, h2, h3],
          ⟨400, "State parameter not provided"⟩,
          by simp [standardCallback, h1, h2, h3]⟩⟩
      · cases hd : decodeOAuthState ((getParam params "state").getD "") with
        | none =>
          exact ⟨"", "", Or.inl ⟨by simp [standardCallback, h1, h2, h3, hd],
            ⟨400, "Invalid state parameter"⟩,
            by simp [standardCallback, h1, h2, h3, hd]⟩⟩
        | some st =>
          cases hl : lookupAssoc d (stateKey provider st.org_id st.user_id) with
          | none =>
            exact ⟨st.org_id, st.user_id, Or.inr (Or.inl
              ⟨by simp [standardCallback, h1, h2, h3, hd, hl, kvAfterGet],
               ⟨400, "State not found or expired"⟩,
               by simp [standardCallback, h1, h2, h3, hd, hl]⟩)⟩
          | some v =>
            by_cases hv : v = ""
            · exact ⟨st.org_id, st.user_id, Or.inr (Or.inl
                ⟨by simp [standardCallback, h1, h2, h3, hd, hl, hv, kvAfterGet],
                 ⟨400, "State not found or expired"⟩,
                 by simp [standardCallback, h1, h2, h3, hd, hl, hv]⟩)⟩
            · cases hp : parseOAuthState v with
              | none =>
                exact ⟨st.org_id, st.user_id, Or.inr (Or.inl
                  ⟨by simp [standardCallback, h1, h2, h3, hd, hl, hv, hp, kvAfterGet],
                   ⟨500, "Internal Server Error"⟩,
                   by simp [standardCallback, h1, h2, h3, hd, hl, hv, hp]⟩)⟩
              | some sv =>
                by_cases hm : sv.state = st.state
                · refine ⟨st.org_id, st.user_id, Or.inr (Or.inr
                    ⟨by simp [standardCallback, h1, h2, h3, hd, hl, hv, hp, hm,
                        kvAfterGet, kvDelete],
                     ⟨(getParam params "code").getD "", st.user_id, st.org_id⟩,
                     by simp [standardCallback, h1, h2, h3, hd, hl, hv, hp, hm],
                     rfl, rfl⟩)⟩
                · exact ⟨st.org_id, st.user_id, Or.inr (Or.inl
                    ⟨by simp [standardCallback, h1, h2, h3, hd, hl, hv, hp, hm, kvAfterGet],
                     ⟨400, "State mismatch"⟩,
                     by simp [standardCallback, h1, h2, h3, hd, hl, hv, hp, hm]⟩)⟩

theorem pkceCallback_log_shape (provider : String) (params : Params)
    (d : List (String × String)) :
    ∃ o u,
      ((pkceCallback provider params ⟨d, []⟩).2.log = [] ∧
        (∃ e, (pkceCallback provider params ⟨d, []⟩).1 = Except.error e) ∧
        (∃ e, (standardCallback provider params ⟨d, []⟩).1 = Except.error e)) ∨
      ((pkceCallback provider params ⟨d, []⟩).2.log =
          [Event.get (stateKey provider o u)] ∧
        (∃ e, (pkceCallback provider params ⟨d, []⟩).1 = Except.error e) ∧
        (∃ e, (standardCallback provider params ⟨d, []⟩).1 = Except.error e)) ∨
      ((pkceCallback provider params ⟨d, []⟩).2.log =
          [Event.get (stateKey provider o u), Event.del (stateKey provider o u),
           Event.get (verifierKey provider o u)] ∧
        (∃ e, (pkceCallback provider params ⟨d, []⟩).1 = Except.error e) ∧
        (∃ r, (standardCallback provider params ⟨d, []⟩).1 = Except.ok r)) ∨
      ((pkceCallback provider params ⟨d, []⟩).2.log =
          [Event.get (stateKey provider o u), Event.del (stateKey provider o u),
           Event.get (verifierKey provider o u), Event.del (verifierKey provider o u)] ∧
        (∃ r : PkceCallbackResult, (pkceCallback provider params ⟨d, []⟩).1 = Except.ok r ∧
          r.org_id = o ∧ r.user_id = u) ∧
        (∃ r, (standardCallback provider params ⟨d, []⟩).1 = Except.ok r)) := by
  obtain ⟨o, u, hcase⟩ := standardCallback_log_shape provider params d
  rcases hcase with ⟨hlog, e, he⟩ | ⟨hlog, e, he⟩ | ⟨hlog, r, hr, hro, hru⟩
  · have hx : standardCallback provider params ⟨d, []⟩ =
        (Except.error e, (standardCallback provider params ⟨d, []⟩).2) := by
      rw [← he]
    refine ⟨o, u, Or.inl ⟨?_, ⟨e, ?_⟩, ⟨e, he⟩⟩⟩
    · unfold pkceCallback
      rw [hx]
      exact hlog
    · unfold pkceCallback
      rw [hx]
  · have hx : standardCallback provider params ⟨d, []⟩ =
        (Except.error e, (standardCallback provider params ⟨d, []⟩).2) := by
      rw [← he]
    refine ⟨o, u, Or.inr (Or.inl ⟨?_, ⟨e, ?_⟩, ⟨e, he⟩⟩)⟩
    · unfold pkceCallback
      rw [hx]
      exact hlog
    · unfold pkceCallback
      rw [hx]
  · have hx : standardCallback provider params ⟨d, []⟩ =
        (Except.ok r, (standardCallback provider params ⟨d, []⟩).2) := by
      rw [← hr]
    cases hlv : lookupAssoc (standardCallback provider params ⟨d, []⟩).2.data
        (verifierKey provider o u) with
    | none =>
      refine ⟨o, u, Or.inr (Or.inr (Or.inl ⟨?_,
        ⟨⟨400, "Code verifier not found or expired"⟩, ?_⟩, ⟨r, hr⟩⟩))⟩
      · unfold pkceCallback
        rw [hx]
        simp [hro, hru, hlv, kvAfterGet, hlog]
      · unfold pkceCallback
        rw [hx]
        simp [hro, hru, hlv]
    | some v =>
      by_cases hv : v = ""
      · refine ⟨o, u, Or.inr (Or.inr (Or.inl ⟨?_,
          ⟨⟨400, "Code verifier not found or expired"⟩, ?_⟩, ⟨r, hr⟩⟩))⟩
        · unfold pkceCallback
          rw [hx]
          simp [hro, hru, hlv, hv, kvAfterGet, hlog]
        · unfold pkceCallback
          rw [hx]
          simp [hro, hru, hlv, hv]
      · refine ⟨o, u, Or.inr (Or.inr (Or.inr ⟨?_,
          ⟨⟨r.code, r.user_id, r.org_id, v⟩, ?_, hro, hru⟩, ⟨r, hr⟩⟩))⟩
        · unfold pkceCallback
          rw [hx]
          simp [hro, hru, hlv, hv, kvDelete, kvAfterGet, hlog]
        · unfold pkceCallback
          rw [hx]
          simp [hro, hru, hlv, hv]

theorem airtableOauthCallback_log_shape (params : Params) (tokenStatus : Nat)
    (tokenBody : List (String × JVal)) (credExpiry : Nat) (d : List (String × String)) :
    ∃ o u,
      (((airtableOauthCallback params tokenStatus tokenBody credExpiry ⟨d, []⟩).2.log = [] ∨
        (airtableOauthCallback params tokenStatus tokenBody credExpiry ⟨d, []⟩).2.log =
          [Event.get (stateKey "airtable" o u)]) ∧
        (∃ e, (standardCallback "airtable" params ⟨d, []⟩).1 = Except.error e)) ∨
      (((airtableOauthCallback params tokenStatus tokenBody credExpiry ⟨d, []⟩).2.log =
          [Event.get (stateKey "airtable" o u), Event.del (stateKey "airtable" o u),
           Event.get (verifierKey "airtable" o u)] ∨
        (airtableOauthCallback params tokenStatus tokenBody credExpiry ⟨d, []⟩).2.log =
          [Event.get (stateKey "airtable" o u), Event.del (stateKey "airtable" o u),
           Event.get (verifierKey "airtable" o u), Event.del (verifierKey "airtable" o u),
           Event.post "https://airtable.com/oauth2/v1/token"] ∨
        (airtableOauthCallback params tokenStatus tokenBody credExpiry ⟨d, []⟩).2.log =
          [Event.get (stateKey "airtable" o u), Event.del (stateKey "airtable" o u),
           Event.get (verifierKey "airtable" o u), Event.del (verifierKey "airtable" o u),
           Event.post "https://airtable.com/oauth2/v1/token",
           Event.set ("airtable" ++ "_credentials:" ++ o ++ ":" ++ u)]) ∧
        (∃ r, (standardCallback "airtable" params ⟨d, []⟩).1 = Except.ok r)) := by
  obtain ⟨o, u, hcase⟩ := pkceCallback_log_shape "airtable" params d
  rcases hcase with ⟨hlog, ⟨e, he⟩, hstd⟩ | ⟨hlog, ⟨e, he⟩, hstd⟩ |
    ⟨hlog, ⟨e, he⟩, hstd⟩ | ⟨hlog, ⟨r, hr, hro, hru⟩, hstd⟩
  · have hx : pkceCallback "airtable" params ⟨d, []⟩ =
        (Except.error e, (pkceCallback "airtable" params ⟨d, []⟩).2) := by
      rw [← he]
    refine ⟨o, u, Or.inl ⟨Or.inl ?_, hstd⟩⟩
    unfold airtableOauthCallback
    rw [hx]
    exact hlog
  · have hx : pkceCallback "airtable" params ⟨d, []⟩ =
        (Except.error e, (pkceCallback "airtable" params ⟨d, []⟩).2) := by
      rw [← he]
    refine ⟨o, u, Or.inl ⟨Or.inr ?_, hstd⟩⟩
    unfold airtableOauthCallback
    rw [hx]
    exact hlog
  · have hx : pkceCallback "airtable" params ⟨d, []⟩ =
        (Except.error e, (pkceCallback "airtable" params ⟨d, []⟩).2) := by
      rw [← he]
    refine ⟨o, u, Or.inr ⟨Or.inl ?_, hstd⟩⟩
    unfold airtableOauthCallback
    rw [hx]
    exact hlog
  · have hx : pkceCallback "airtable" params ⟨d, []⟩ =
        (Except.ok r, (pkceCallback "airtable" params ⟨d, []⟩).2) := by
      rw [← hr]
    by_cases hst : tokenStatus = 200
    · cases hvb : validateAirtableCredentials tokenBody with
      | none =>
        refine ⟨o, u, Or.inr ⟨Or.inr (Or.inl ?_), hstd⟩⟩
        unfold airtableOauthCallback
        rw [hx]
        simp [hst, hvb, httpPost, hlog]
      | some creds =>
        refine ⟨o, u, Or.inr ⟨Or.inr (Or.inr ?_), hstd⟩⟩
        unfold airtableOauthCallback
        rw [hx]
        simp [hst, hvb, httpPost, kvSet, hlog, hro, hru]
    · refine ⟨o, u, Or.inr ⟨Or.inr (Or.inl ?_), hstd⟩⟩
      unfold airtableOauthCallback
      rw [hx]
      simp [hst, httpPost, hlog]

/-- C7: in every airtable oauth_callback execution (the PKCE pipeline),
every state-key read precedes every state-key delete, every state-key
operation precedes every verifier-key operation, every state or verifier
operation precedes the token-exchange POST, and when state validation
fails no verifier-key operation and no token exchange happen at all. -/
theorem c7_state_then_verifier_then_exchange (params : Params) (tokenStatus : Nat)
    (tokenBody : List (String × JVal)) (credExpiry : Nat) (d : List (String × String)) :
    eventsOrdered
      (airtableOauthCallback params tokenStatus tokenBody credExpiry ⟨d, []⟩).2.log
      (isStateGet "airtable") (isStateDel "airtable") ∧
    eventsOrdered
      (airtableOauthCallback params tokenStatus tokenBody credExpiry ⟨d, []⟩).2.log
      (isStateOp "airtable") (isVerifierOp "airtable") ∧
    eventsOrdered
      (airtableOauthCallback params tokenStatus tokenBody credExpiry ⟨d, []⟩).2.log
      (fun e => isStateOp "airtable" e ∨ isVerifierOp "airtable" e) isPostEv ∧
    ((∃ e, (standardCallback "airtable" params ⟨d, []⟩).1 = Except.error e) →
      ∀ ev ∈ (airtableOauthCallback params tokenStatus tokenBody credExpiry ⟨d, []⟩).2.log,
        ¬ isVerifierOp "airtable" ev ∧ ¬ isPostEv ev) := by
  obtain ⟨o, u, hcase⟩ :=
    airtableOauthCallback_log_shape params tokenStatus tokenBody credExpiry d
  rcases hcase with ⟨hlog | hlog, hstd⟩ | ⟨hlog | hlog | hlog, hstd⟩
  · rw [hlog]
    exact ⟨eventsOrdered_nil _ _, eventsOrdered_nil _ _, eventsOrdered_nil _ _,
      fun _ ev hev => absurd hev (List.not_mem_nil ev)⟩
  · rw [hlog]
    refine ⟨?_, ?_, ?_, ?_⟩
    · exact eventsOrdered_of_split
        [Event.get (stateKey "airtable" o u)]
        [] _ _
        (fun e he => absurd he (List.not_mem_nil e))
        (fun e he => by
                  simp only [List.mem_cons, List.not_mem_nil, or_false] at he
                  rcases he with rfl
                  · exact isStateDel_not_get _ _
                  )
    · exact eventsOrdered_of_split
        [Event.get (stateKey "airtable" o u)]
        [] _ _
        (fun e he => absurd he (List.not_mem_nil e))
        (fun e he => by
                  simp only [List.mem_cons, List.not_mem_nil, or_false] at he
                  rcases he with rfl
                  · exact isVerifierOp_not_state_get _ _ _
                  )
    · exact eventsOrdered_of_split
        [Event.get (stateKey "airtable" o u)]
        [] _ _
        (fun e he => absurd he (List.not_mem_nil e))
        (fun e he => by
                  simp only [List.mem_cons, List.not_mem_nil, or_false] at he
                  rcases he with rfl
                  · exact isPostEv_not_get _
                  )
    · intro _ ev hev
      simp only [List.mem_cons, List.not_mem_nil, or_false] at hev
      rcases hev with rfl
      exact ⟨isVerifierOp_not_state_get _ _ _, isPostEv_not_get _⟩
  · rw [hlog]
    refine ⟨?_, ?_, ?_, ?_⟩
    · exact eventsOrdered_of_split
        [Event.get (stateKey "airtable" o u)]
        [Event.del (stateKey "airtable" o u),
         Event.get (verifierKey "airtable" o u)] _ _
        (fun e he => by
                  simp only [List.mem_cons, List.not_mem_nil, or_false] at he
                  rcases he with rfl | rfl
                  · exact isStateGet_not_del _ _
                  · exact isStateGet_not_verifier _ _ _
                  )
        (fun e he => by
                  simp only [List.mem_cons, List.not_mem_nil, or_false] at he
                  rcases he with rfl
                  · exact isStateDel_not_get _ _
                  )
    · exact eventsOrdered_of_split
        [Event.get (stateKey "airtable" o u),
         Event.del (stateKey "airtable" o u)]
        [Event.get (verifierKey "airtable" o u)] _ _
        (fun e he => by
                  simp only [List.mem_cons, List.not_mem_nil, or_false] at he
                  rcases he with rfl
                  · exact isStateOp_not_verifier_get _ _ _
                  )
        (fun e he => by
                  simp only [List.mem_cons, List.not_mem_nil, or_false] at he
                  rcases he with rfl | rfl
                  · exact isVerifierOp_not_state_get _ _ _
                  · exact isVerifierOp_not_state_del _ _ _
                  )
    · exact eventsOrdered_of_split
        [Event.get (stateKey "airtable" o u), Event.del (stateKey "airtable" o u), Event.get (verifierKey "airtable" o u)]
        [] _ _
        (fun e he => absurd he (List.not_mem_nil e))
        (fun e he => by
                  simp only [List.mem_cons, List.not_mem_nil, or_false] at he
                  rcases he with rfl | rfl | rfl
                  · exact isPostEv_not_get _
                  · exact isPostEv_not_del _
                  · exact isPostEv_not_get _
                  )
    · intro hfail
      obtain ⟨e, he⟩ := hfail
      obtain ⟨r, hr⟩ := hstd
      rw [he] at hr
      cases hr
  · rw [hlog]
    refine ⟨?_, ?_, ?_, ?_⟩
    · exact eventsOrdered_of_split
        [Event.get (stateKey "airtable" o u)]
        [Event.del (stateKey "airtable" o u),
         Event.get (verifierKey "airtable" o u),
         Event.del (verifierKey "airtable" o u),
         Event.post "https://airtable.com/oauth2/v1/token"] _ _
        (fun e he => by
                  simp only [List.mem_cons, List.not_mem_nil, or_false] at he
                  rcases he with rfl | rfl | rfl | rfl
                  · exact isStateGet_not_del _ _
                  · exact isStateGet_not_verifier _ _ _
                  · exact isStateGet_not_del _ _
                  · exact isStateGet_not_post _ _
                  )
        (fun e he => by
                  simp only [List.mem_cons, List.not_mem_nil, or_false] at he
                  rcases he with rfl
                  · exact isStateDel_not_get _ _
                  )
    · exact eventsOrdered_of_split
        [Event.get (stateKey "airtable" o u),
         Event.del (stateKey "airtable" o u)]
        [Event.get (verifierKey "airtable" o u),
         Event.del (verifierKey "airtable" o u),
         Event.post "https://airtable.com/oauth2/v1/token"] _ _
        (fun e he => by
                  simp only [List.mem_cons, List.not_mem_nil, or_false] at he
                  rcases he with rfl | rfl | rfl
                  · exact isStateOp_not_verifier_get _ _ _
                  · exact isStateOp_not_verifier_del _ _ _
                  · exact isStateOp_not_post _ _
                  )
        (fun e he => by
                  simp only [List.mem_cons, List.not_mem_nil, or_false] at he
                  rcases he with rfl | rfl
                  · exact isVerifierOp_not_state_get _ _ _
                  · exact isVerifierOp_not_state_del _ _ _
                  )
    · exact eventsOrdered_of_split
        [Event.get (stateKey "airtable" o u), Event.del (stateKey "airtable" o u), Event.get (verifierKey "airtable" o u), Event.del (verifierKey "airtable" o u)]
        [Event.post "https://airtable.com/oauth2/v1/token"] _ _
        (fun e he => by
                  simp only [List.mem_cons, List.not_mem_nil, or_false] at he
                  rcases he with rfl
                  · rintro (h | h)
                    · exact isStateOp_not_post _ _ h
                    · exact isVerifierOp_not_post _ _ h
                  )
        (fun e he => by
                  simp only [List.mem_cons, List.not_mem_nil, or_false] at he
                  rcases he with rfl | rfl | rfl | rfl
                  · exact isPostEv_not_get _
                  · exact isPostEv_not_del _
                  · exact isPostEv_not_get _
                  · exact isPostEv_not_del _
                  )
    · intro hfail
      obtain ⟨e, he⟩ := hfail
      obtain ⟨r, hr⟩ := hstd
      rw [he] at hr
      cases hr
  · rw [hlog]
    refine ⟨?_, ?_, ?_, ?_⟩
    · exact eventsOrdered_of_split
        [Event.get (stateKey "airtable" o u)]
        [Event.del (stateKey "airtable" o u),
         Event.get (verifierKey "airtable" o u),
         Event.del (verifierKey "airtable" o u),
         Event.post "https://airtable.com/oauth2/v1/token",
         Event.set ("airtable" ++ "_credentials:" ++ o ++ ":" ++ u)] _ _
        (fun e he => by
                  simp only [List.mem_cons, List.not_mem_nil, or_false] at he
                  rcases he with rfl | rfl | rfl | rfl | rfl
                  · exact isStateGet_not_del _ _
                  · exact isStateGet_not_verifier _ _ _
                  · exact isStateGet_not_del _ _
                  · exact isStateGet_not_post _ _
                  · exact isStateGet_not_set _ _
                  )
        (fun e he => by
                  simp only [List.mem_cons, List.not_mem_nil, or_false] at he
                  rcases he with rfl
                  · exact isStateDel_not_get _ _
                  )
    · exact eventsOrdered_of_split
        [Event.get (stateKey "airtable" o u),
         Event.del (stateKey "airtable" o u)]
        [Event.get (verifierKey "airtable" o u),
         Event.del (verifierKey "airtable" o u),
         Event.post "https://airtable.com/oauth2/v1/token",
         Event.set ("airtable" ++ "_credentials:" ++ o ++ ":" ++ u)] _ _
        (fun e he => by
                  simp only [List.mem_cons, List.not_mem_nil, or_false] at he
                  rcases he with rfl | rfl | rfl | rfl
                  · exact isStateOp_not_verifier_get _ _ _
                  · exact isStateOp_not_verifier_del _ _ _
                  · exact isStateOp_not_post _ _
                  · exact isStateOp_not_cred_set _ _ _
                  )
        (fun e he => by
                  simp only [List.mem_cons, List.not_mem_nil, or_false] at he
                  rcases he with rfl | rfl
                  · exact isVerifierOp_not_state_get _ _ _
                  · exact isVerifierOp_not_state_del _ _ _
                  )
    · exact eventsOrdered_of_split
        [Event.get (stateKey "airtable" o u), Event.del (stateKey "airtable" o u), Event.get (verifierKey "airtable" o u), Event.del (verifierKey "airtable" o u)]
        [Event.post "https://airtable.com/oauth2/v1/token", Event.set ("airtable" ++ "_credentials:" ++ o ++ ":" ++ u)] _ _
        (fun e he => by
                  simp only [List.mem_cons, List.not_mem_nil, or_false] at he
                  rcases he with rfl | rfl
                  · rintro (h | h)
                    · exact isStateOp_not_post _ _ h
                    · exact isVerifierOp_not_post _ _ h
                  · rintro (h | h)
                    · exact isStateOp_not_cred_set _ _ _ h
                    · exact isVerifierOp_not_cred_set _ _ _ h
                  )
        (fun e he => by
                  simp only [List.mem_cons, List.not_mem_nil, or_false] at he
                  rcases he with rfl | rfl | rfl | rfl
                  · exact isPostEv_not_get _
                  · exact isPostEv_not_del _
                  · exact isPostEv_not_get _
                  · exact isPostEv_not_del _
                  )
    · intro hfail
      obtain ⟨e, he⟩ := hfail
      obtain ⟨r, hr⟩ := hstd
      rw [he] at hr
      cases hr

/-- Witness for C7 at a concrete successful callback. -/
theorem c7_state_then_verifier_then_exchange_witness :
    eventsOrdered
      (airtableOauthCallback
        [("code", "c"),
         ("state", (pkceAuthorize "airtable" "u" "o" "T" "V" 600 ⟨[], []⟩).1.encoded_state)]
        200 [("access_token", JVal.s "AT")] 600
        ⟨(pkceAuthorize "airtable" "u" "o" "T" "V" 600 ⟨[], []⟩).2.data, []⟩).2.log
      (isStateGet "airtable") (isStateDel "airtable") ∧
    eventsOrdered
      (airtableOauthCallback
        [("code", "c"),
         ("state", (pkceAuthorize "airtable" "u" "o" "T" "V" 600 ⟨[], []⟩).1.encoded_state)]
        200 [("access_token", JVal.s "AT")] 600
        ⟨(pkceAuthorize "airtable" "u" "o" "T" "V" 600 ⟨[], []⟩).2.data, []⟩).2.log
      (isStateOp "airtable") (isVerifierOp "airtable") ∧
    eventsOrdered
      (airtableOauthCallback
        [("code", "c"),
         ("state", (pkceAuthorize "airtable" "u" "o" "T" "V" 600 ⟨[], []⟩).1.encoded_state)]
        200 [("access_token", JVal.s "AT")] 600
        ⟨(pkceAuthorize "airtable" "u" "o" "T" "V" 600 ⟨[], []⟩).2.data, []⟩).2.log
      (fun e => isStateOp "airtable" e ∨ isVerifierOp "airtable" e) isPostEv ∧
    ((∃ e, (standardCallback "airtable"
        [("code", "c"),
         ("state", (pkceAuthorize "airtable" "u" "o" "T" "V" 600 ⟨[], []⟩).1.encoded_state)]
        ⟨(pkceAuthorize "airtable" "u" "o" "T" "V" 600 ⟨[], []⟩).2.data, []⟩).1 =
          Except.error e) →
      ∀ ev ∈ (airtableOauthCallback
        [("code", "c"),
         ("state", (pkceAuthorize "airtable" "u" "o" "T" "V" 600 ⟨[], []⟩).1.encoded_state)]
        200 [("access_token", JVal.s "AT")] 600
        ⟨(pkceAuthorize "airtable" "u" "o" "T" "V" 600 ⟨[], []⟩).2.data, []⟩).2.log,
          ¬ isVerifierOp "airtable" ev ∧ ¬ isPostEv ev) :=
  c7_state_then_verifier_then_exchange
    [("code", "c"),
     ("state", (pkceAuthorize "airtable" "u" "o" "T" "V" 600 ⟨[], []⟩).1.encoded_state)]
    200 [("access_token", JVal.s "AT")] 600
    (pkceAuthorize "airtable" "u" "o" "T" "V" 600 ⟨[], []⟩).2.data

end Vsi
